import Mathlib

/-!
A verification development for the `pivotalclient` Python package
(`pivotalclient/__init__.py`).  The client wraps the Pivotal Tracker REST
API; its core is a transport function `_get` (one authenticated GET with
status validation) and a pagination engine `_get_all` (repeated enveloped
GETs driven by an offset/limit cursor).  Everything below is a shallow
embedding of that file: Python dicts become association lists with
insertion-order update semantics, JSON bodies become an inductive `Json`
type, the HTTP library becomes an explicit `Server` oracle mapping the
call index and the issued request to an optional response, and exceptions
become an `Except` result.  The pagination loop is given explicit fuel
(its source has no iteration bound); `Option.none` as a loop result means
the fuel ran out, never a value of the program.
-/

namespace Pivotal

/-- Scalar Python values that appear in querystrings: strings, ints and
`None` (the `filter` slot of `api_filter` starts as `None`). -/
inductive PyVal where
  | str : String → PyVal
  | int : Int → PyVal
  | none : PyVal
deriving DecidableEq, Repr

/-- A Python dict with string keys, as an insertion-ordered association
list (Python dicts preserve insertion order; assignment to an existing key
keeps its position, assignment to a fresh key appends). -/
abbrev Dict := List (String × PyVal)

/-- Python `d[k] = v`: replace in place if the key exists, else append. -/
def dictSet : Dict → String → PyVal → Dict
  | [], k, v => [(k, v)]
  | (k', v') :: rest, k, v =>
    if k' == k then (k, v) :: rest else (k', v') :: dictSet rest k v

/-- Python `d.get(k)`: the value at the key, if present. -/
def dictGet : Dict → String → Option PyVal
  | [], _ => Option.none
  | (k', v') :: rest, k => if k' == k then some v' else dictGet rest k

/-- JSON values, for response bodies (`resp.json()`). -/
inductive Json where
  | null : Json
  | str : String → Json
  | int : Int → Json
  | arr : List Json → Json
  | obj : List (String × Json) → Json

/-- Lookup in a JSON object's field list (Python `mapping.get(k)`). -/
def jsonLookup (kvs : List (String × Json)) (k : String) : Option Json :=
  (kvs.find? (fun p => p.1 == k)).map Prod.snd

/-- Exceptions the modelled code can raise.  `apiError` is the library's
own `ApiError`; `attributeError` and `typeError` stand for the dynamic
errors Python raises when a value of the wrong shape is used. -/
inductive PyErr where
  | apiError : String → PyErr
  | attributeError : String → PyErr
  | typeError : String → PyErr
deriving DecidableEq, Repr

/-- Whether an exception is the library's `ApiError`. -/
def PyErr.isApiErr : PyErr → Bool
  | .apiError _ => true
  | _ => false

/-- One HTTP response: a status code and an already-parsed JSON body. -/
structure HttpResp where
  status : Int
  body : Json

/-- A GET request as actually issued: endpoint URL, final query
parameters, and headers. -/
structure Request where
  endpoint : String
  params : Dict
  headers : Dict
deriving DecidableEq, Repr

/-- The HTTP library (`requests.get`) as an oracle: given the index of the
call (how many GETs were issued before it) and the request, it returns a
response, or `Option.none` for a null response. -/
abbrev Server := Nat → Request → Option HttpResp

/-- A server that ignores the call index (it answers from the request
alone), so that the response to any recorded request can be recovered. -/
abbrev Server1 := Request → Option HttpResp

/-- Lift an index-free server to a `Server`. -/
def liftServer (f : Server1) : Server := fun _ r => f r

/-- A server that answers call `k` with the `k`-th canned response and
returns a null response past the end of the list. -/
def cannedServer (rs : List HttpResp) : Server := fun k _ => rs.get? k

/-- The state of `PivotalClient` after `__init__`: token, optional ids,
resolved API root and the shared `api_filter` dict. -/
structure Client where
  apiToken : String
  accountId : Option Int
  projectId : Option Int
  apiRoot : String
  apiFilter : Dict
deriving DecidableEq, Repr

/-- The default API root used when `api_root` is falsy. -/
def defaultApiRoot : String := "https://www.pivotaltracker.com/services/v5"

/-- The initial value of `self.api_filter`. -/
def apiFilterInit : Dict := [("date_format", PyVal.str "millis"), ("filter", PyVal.none)]

/-- Models `PivotalClient.__init__`: `if not api_root` treats both `None`
and the empty string as unset and substitutes the default root; the id
fields are stored as given and `api_filter` is set to its constant initial
value.  (The URL attributes of the source are derived on demand below:
they are pure functions of these fields.) -/
def mkClient (apiToken : String) (accountId projectId : Option Int)
    (apiRoot : Option String) : Client :=
  let root := match apiRoot with
    | Option.none => defaultApiRoot
    | some r => if r == "" then defaultApiRoot else r
  ⟨apiToken, accountId, projectId, root, apiFilterInit⟩

/-- Python truthiness of an optional integer id (`if self.project_id:`):
`None` and `0` are falsy. -/
def truthyId : Option Int → Bool
  | Option.none => false
  | some n => n != 0

/-- Renders an id the way `str.format` does (`str(None)` is `"None"`). -/
def pyStr : PyVal → String
  | .str s => s
  | .int n => toString n
  | .none => "None"

/-- `self.api_projects`. -/
def apiProjects (c : Client) : String := c.apiRoot ++ "/projects"

/-- `self.api_project` (only constructed when the project id is truthy;
only consulted after `_verify_project_id_exists` succeeds). -/
def apiProject (c : Client) : String :=
  apiProjects c ++ "/" ++ toString (c.projectId.getD 0)

/-- `self.api_stories`. -/
def apiStories (c : Client) : String := apiProject c ++ "/stories"

/-- `self.api_activity` with the story id substituted. -/
def apiActivity (c : Client) (storyId : Int) : String :=
  apiProject c ++ "/stories/" ++ toString storyId ++ "/activity"

/-- `self.api_project_memberships`. -/
def apiProjectMemberships (c : Client) : String := apiProject c ++ "/memberships"

/-- `self.api_integrations`. -/
def apiIntegrations (c : Client) : String := apiProject c ++ "/integrations"

/-- `self.api_integration` with the integration id substituted. -/
def apiIntegration (c : Client) (integrationId : PyVal) : String :=
  apiIntegrations c ++ "/" ++ pyStr integrationId

/-- `self.api_integration_stories` with the integration id substituted. -/
def apiIntegrationStories (c : Client) (integrationId : PyVal) : String :=
  apiIntegrations c ++ "/" ++ pyStr integrationId ++ "/stories"

/-- `self.api_accounts`. -/
def apiAccounts (c : Client) : String := c.apiRoot ++ "/accounts"

/-- `self.api_account`. -/
def apiAccount (c : Client) : String :=
  apiAccounts c ++ "/" ++ toString (c.accountId.getD 0)

/-- `self.api_account_memberships`. -/
def apiAccountMemberships (c : Client) : String := apiAccount c ++ "/memberships"

/-- Whether an HTTP status is accepted by `_get` (`200 <= status < 300`). -/
def okStatus (s : Int) : Bool := decide (200 ≤ s) && decide (s < 300)

/-- The request `_get` builds from its arguments: the caller's querystring
is cloned (`querystring.copy() if querystring else` an empty dict), then,
if `with_envelope` is set, `envelope=true` is written into the clone; the
fixed auth header is attached. -/
def builtRequest (c : Client) (endpoint : String) (querystring : Option Dict)
    (withEnvelope : Bool) : Request :=
  let q0 := querystring.getD []
  let q1 := if withEnvelope then dictSet q0 "envelope" (PyVal.str "true") else q0
  ⟨endpoint, q1, [("X-TrackerToken", PyVal.str c.apiToken)]⟩

/-- Models `PivotalClient._get`.  On a present response the code raises
`ApiError('GET ' + endpoint + ' ' + status)` unless the status is 2xx
(the extra `not resp` test — the response's truthiness, status below 400 —
is subsumed by the range test), and otherwise returns `resp.json()`, the
parsed body.  On a null response the code evaluates `resp.status_code`
while formatting the message, so Python raises `AttributeError` before
`ApiError` is ever constructed.  Returns the outcome together with the
request that was issued. -/
def transportGet (srv : Server) (k : Nat) (c : Client) (endpoint : String)
    (querystring : Option Dict) (withEnvelope : Bool) :
    Except PyErr Json × Request :=
  let req := builtRequest c endpoint querystring withEnvelope
  match srv k req with
  | Option.none =>
    (Except.error (PyErr.attributeError "NoneType object has no attribute status_code"), req)
  | some resp =>
    if okStatus resp.status then (Except.ok resp.body, req)
    else
      (Except.error (PyErr.apiError ("GET " ++ endpoint ++ " " ++ toString resp.status)), req)

/-- Models `response.get('data', [])` (and the later `len` / `extend` on
it): the element list when `data` is an array, the empty list when the
key is absent.  A body that is not a JSON object, or a `data` value that
is not an array, would fault in Python; that is returned as `Option.none`
and surfaced as a model-level type error by the loop — the theorems only
exercise well-formed envelope bodies. -/
def envData : Json → Option (List Json)
  | .obj kvs =>
    match jsonLookup kvs "data" with
    | some (.arr l) => some l
    | some _ => Option.none
    | Option.none => some []
  | _ => Option.none

/-- Models `response.get('pagination', {}).get('limit', DEFAULT)`: `some l`
when a pagination object carrying an integer `limit` is present, else
`Option.none`, which the loop replaces by the default 1000. -/
def envPagLimit : Json → Option Int
  | .obj kvs =>
    match jsonLookup kvs "pagination" with
    | some (.obj pkvs) =>
      match jsonLookup pkvs "limit" with
      | some (.int l) => some l
      | _ => Option.none
    | _ => Option.none
  | _ => Option.none

/-- The default page limit of `_get_all` (`DEFAULT_PAGE_LIMIT`). -/
def DEFAULT_PAGE_LIMIT : Int := 1000

/-- The querystring `_get_all` passes to `_get` on one iteration: the
clone of the caller's dict with the current `limit` and `offset` written
into it.  (The source mutates one dict in place; since only these two keys
are ever reassigned, the dict at each iteration equals this
reconstruction, with `limit` written before `offset` as in the code.) -/
def cursorDict (base : Dict) (limit offset : Int) : Dict :=
  dictSet (dictSet base "limit" (PyVal.int limit)) "offset" (PyVal.int offset)

/-- The `while True` body of `_get_all`, with explicit fuel.  State:
current `limit` and `offset`, accumulated `results`, the global GET
counter `k` and the requests issued so far.  Each iteration issues one
enveloped GET; an exception propagates immediately; an empty (or absent)
`data` breaks the loop returning the accumulator; otherwise the page is
appended, the limit is re-read from the response (defaulting to 1000) and
the offset advances by that updated limit. -/
def getAllLoop (srv : Server) (c : Client) (endpoint : String) (base : Dict) :
    Nat → Int → Int → List Json → Nat → List Request →
    Option (Except PyErr (List Json) × Nat × List Request)
  | 0, _, _, _, _, _ => Option.none
  | fuel + 1, limit, offset, acc, k, reqs =>
    let tg := transportGet srv k c endpoint (some (cursorDict base limit offset)) true
    match tg.1 with
    | Except.error e => some (Except.error e, k + 1, reqs ++ [tg.2])
    | Except.ok body =>
      match envData body with
      | Option.none =>
        some (Except.error (PyErr.typeError "response body is not an envelope object"),
          k + 1, reqs ++ [tg.2])
      | some l =>
        if l.isEmpty then some (Except.ok acc, k + 1, reqs ++ [tg.2])
        else
          let newLimit := (envPagLimit body).getD DEFAULT_PAGE_LIMIT
          getAllLoop srv c endpoint base fuel newLimit (offset + newLimit) (acc ++ l)
            (k + 1) (reqs ++ [tg.2])

/-- Models `PivotalClient._get_all`: clone the caller's querystring, seed
the cursor with `limit = 1000`, `offset = 0`, and run the loop.  `k0` is
the number of GETs issued before this invocation (the call-index
counter).  Returns the outcome, the final counter, and the list of
requests issued — or `Option.none` if the fuel ran out. -/
def getAll (srv : Server) (c : Client) (endpoint : String)
    (querystring : Option Dict) (fuel : Nat) (k0 : Nat) :
    Option (Except PyErr (List Json) × Nat × List Request) :=
  getAllLoop srv c endpoint (querystring.getD []) fuel DEFAULT_PAGE_LIMIT 0 [] k0 []

/-- The message of the `ApiError` raised when the project id is missing. -/
def projectIdMissingMsg (caller : String) : String :=
  "Project ID not set on API connection and is required by " ++ caller ++ "()."

/-- The message of the `ApiError` raised when the account id is missing. -/
def accountIdMissingMsg (caller : String) : String :=
  "Account ID not set on API connection and is required by " ++ caller ++ "()."

/-- Models `_verify_project_id_exists`.  The source recovers the caller's
name at runtime (`sys.getframe` does not exist, so the handler falls back
to `inspect.stack()[1][3]`, the immediate caller's function name); here
that name is passed explicitly by each call site. -/
def verifyProjectIdExists (c : Client) (caller : String) : Except PyErr Unit :=
  if truthyId c.projectId then Except.ok ()
  else Except.error (PyErr.apiError (projectIdMissingMsg caller))

/-- Models `_verify_account_id_exists` (same caller-name convention). -/
def verifyAccountIdExists (c : Client) (caller : String) : Except PyErr Unit :=
  if truthyId c.accountId then Except.ok ()
  else Except.error (PyErr.apiError (accountIdMissingMsg caller))

/-- Models `get_stories_by_filter`: verify the project id, copy
`self.api_filter`, write the given filter into the copy, and fetch all
stories with it.  The method never assigns to `self`, so the client state
is returned exactly as received (second component). -/
def getStoriesByFilter (srv : Server) (c : Client) (pivotalFilter : PyVal)
    (fuel : Nat) (k0 : Nat) :
    Option (Except PyErr (List Json) × Nat × List Request) × Client :=
  match verifyProjectIdExists c "get_stories_by_filter" with
  | Except.error e => (some (Except.error e, k0, []), c)
  | Except.ok _ =>
    let filt := dictSet c.apiFilter "filter" pivotalFilter
    (getAll srv c (apiStories c) (some filt) fuel k0, c)

/-- Models `get_stories_by_label`: a fresh one-key filter dict. -/
def getStoriesByLabel (srv : Server) (c : Client) (label : String)
    (fuel : Nat) (k0 : Nat) :
    Option (Except PyErr (List Json) × Nat × List Request) :=
  match verifyProjectIdExists c "get_stories_by_label" with
  | Except.error e => some (Except.error e, k0, [])
  | Except.ok _ =>
    let filt : Dict := [("filter", PyVal.str ("label:\"" ++ label ++ "\""))]
    getAll srv c (apiStories c) (some filt) fuel k0

/-- Models `get_story_activities`: a single non-enveloped GET with no
querystring. -/
def getStoryActivities (srv : Server) (c : Client) (storyId : Int) (k0 : Nat) :
    Except PyErr Json × Nat × List Request :=
  match verifyProjectIdExists c "get_story_activities" with
  | Except.error e => (Except.error e, k0, [])
  | Except.ok _ =>
    let tg := transportGet srv k0 c (apiActivity c storyId) Option.none false
    (tg.1, k0 + 1, [tg.2])

/-- Models `get_project_memberships`. -/
def getProjectMemberships (srv : Server) (c : Client) (k0 : Nat) :
    Except PyErr Json × Nat × List Request :=
  match verifyProjectIdExists c "get_project_memberships" with
  | Except.error e => (Except.error e, k0, [])
  | Except.ok _ =>
    let tg := transportGet srv k0 c (apiProjectMemberships c) Option.none false
    (tg.1, k0 + 1, [tg.2])

/-- Models `get_account_memberships`. -/
def getAccountMemberships (srv : Server) (c : Client) (k0 : Nat) :
    Except PyErr Json × Nat × List Request :=
  match verifyAccountIdExists c "get_account_memberships" with
  | Except.error e => (Except.error e, k0, [])
  | Except.ok _ =>
    let tg := transportGet srv k0 c (apiAccountMemberships c) Option.none false
    (tg.1, k0 + 1, [tg.2])

/-- Models `get_integrations`. -/
def getIntegrations (srv : Server) (c : Client) (k0 : Nat) :
    Except PyErr Json × Nat × List Request :=
  match verifyProjectIdExists c "get_integrations" with
  | Except.error e => (Except.error e, k0, [])
  | Except.ok _ =>
    let tg := transportGet srv k0 c (apiIntegrations c) Option.none false
    (tg.1, k0 + 1, [tg.2])

/-- Models `get_integration`. -/
def getIntegration (srv : Server) (c : Client) (integrationId : PyVal) (k0 : Nat) :
    Except PyErr Json × Nat × List Request :=
  match verifyProjectIdExists c "get_integration" with
  | Except.error e => (Except.error e, k0, [])
  | Except.ok _ =>
    let tg := transportGet srv k0 c (apiIntegration c integrationId) Option.none false
    (tg.1, k0 + 1, [tg.2])

/-- Models `get_integration_stories`: one non-enveloped GET carrying the
fixed querystring `exclude_linked='true'`. -/
def getIntegrationStories (srv : Server) (c : Client) (integrationId : PyVal) (k0 : Nat) :
    Except PyErr Json × Nat × List Request :=
  match verifyProjectIdExists c "get_integration_stories" with
  | Except.error e => (Except.error e, k0, [])
  | Except.ok _ =>
    let tg := transportGet srv k0 c (apiIntegrationStories c integrationId)
      (some [("exclude_linked", PyVal.str "true")]) false
    (tg.1, k0 + 1, [tg.2])

/-- Models `integration.get('id')` on one element of the integrations
list: the element must be a JSON object (anything else faults in Python —
`Option.none` here); an absent `id` yields Python `None`, a scalar id is
carried through. -/
def integrationIdOf : Json → Option PyVal
  | .obj kvs =>
    match jsonLookup kvs "id" with
    | some (.int n) => some (PyVal.int n)
    | some (.str s) => some (PyVal.str s)
    | some .null => some PyVal.none
    | Option.none => some PyVal.none
    | some _ => Option.none
  | _ => Option.none

/-- The `for integration in integrations` loop of
`get_all_integration_stories`: for each integration, fetch its stories
and extend the accumulator (the fetched value must be a JSON array for
`extend` to accept it). -/
def integrationStoriesLoop (srv : Server) (c : Client) :
    List Json → List Json → Nat → List Request →
    Except PyErr (List Json) × Nat × List Request
  | [], acc, k, reqs => (Except.ok acc, k, reqs)
  | j :: rest, acc, k, reqs =>
    match integrationIdOf j with
    | Option.none => (Except.error (PyErr.typeError "integration is not an object"), k, reqs)
    | some idv =>
      match getIntegrationStories srv c idv k with
      | (Except.error e, k', reqs') => (Except.error e, k', reqs ++ reqs')
      | (Except.ok stories, k', reqs') =>
        match stories with
        | .arr l => integrationStoriesLoop srv c rest (acc ++ l) k' (reqs ++ reqs')
        | _ => (Except.error (PyErr.typeError "stories is not a list"), k', reqs ++ reqs')

/-- Models `get_all_integration_stories`: fetch the integrations (the
value must be a JSON array to be iterable), then concatenate each
integration's stories in order. -/
def getAllIntegrationStories (srv : Server) (c : Client) (k0 : Nat) :
    Except PyErr (List Json) × Nat × List Request :=
  match getIntegrations srv c k0 with
  | (Except.error e, k, reqs) => (Except.error e, k, reqs)
  | (Except.ok ints, k, reqs) =>
    match ints with
    | .arr l => integrationStoriesLoop srv c l [] k reqs
    | _ => (Except.error (PyErr.typeError "integrations is not a list"), k, reqs)

/-- The integer `limit` parameter a request carries (0 if absent — every
request the pagination loop issues carries one). -/
def reqLimitI (r : Request) : Int :=
  match dictGet r.params "limit" with
  | some (PyVal.int n) => n
  | _ => 0

/-- The integer `offset` parameter a request carries (0 if absent). -/
def reqOffsetI (r : Request) : Int :=
  match dictGet r.params "offset" with
  | some (PyVal.int n) => n
  | _ => 0

/-- The step invariant between two consecutive requests of one `_get_all`
run against an index-free server `f`: the earlier request got a 2xx
response with a nonempty `data` page, the next request's `limit` is the
response's `pagination.limit` when present and the default 1000 otherwise,
and its `offset` is the previous offset plus that updated limit. -/
def pageStep (f : Server1) (r r' : Request) : Prop :=
  ∃ resp, f r = some resp ∧ okStatus resp.status = true ∧
    (∃ l, envData resp.body = some l ∧ l ≠ []) ∧
    reqLimitI r' = (envPagLimit resp.body).getD DEFAULT_PAGE_LIMIT ∧
    reqOffsetI r' = reqOffsetI r + (envPagLimit resp.body).getD DEFAULT_PAGE_LIMIT

/-- Comparison of the offsets two requests carry. -/
def offsetLE (r r' : Request) : Prop := reqOffsetI r ≤ reqOffsetI r'

instance : IsTrans Request offsetLE := ⟨fun _ _ _ h h' => le_trans h h'⟩

/-- An envelope body with the given `data` page and, optionally, a
`pagination` object carrying a `limit`. -/
def pageBody (l : List Json) (pl : Option Int) : Json :=
  match pl with
  | some n => Json.obj [("data", Json.arr l), ("pagination", Json.obj [("limit", Json.int n)])]
  | Option.none => Json.obj [("data", Json.arr l)]

/-- Whether a canned response is a 2xx envelope carrying a nonempty page. -/
def nonemptyPage (r : HttpResp) : Bool :=
  okStatus r.status &&
    match envData r.body with
    | some (_ :: _) => true
    | _ => false

/-- The response of a server that stores `recs` and enforces a page cap
`cap`: it reads the request's cursor, serves the slice of `recs` starting
at `offset` of size `min limit cap`, and reports `cap` as
`pagination.limit`. -/
def cappedRespond (recs : List Json) (cap : Int) (r : Request) : HttpResp :=
  ⟨200, pageBody ((recs.drop (reqOffsetI r).toNat).take (min (reqLimitI r) cap).toNat) (some cap)⟩

/-- The capped server as an index-free oracle. -/
def cappedServer (recs : List Json) (cap : Int) : Server1 :=
  fun r => some (cappedRespond recs cap r)

/-- Ceiling division on naturals: the page count ⌈n / c⌉. -/
def ceilDiv (n c : Nat) : Nat := (n + c - 1) / c

/-- A JSON integration object with the given id, as returned by the
integrations endpoint. -/
def intObj (n : Int) : Json := Json.obj [("id", Json.int n)]

/-- A 2xx response whose body is a bare JSON array (the shape of the
non-enveloped story list endpoints). -/
def arrResp (l : List Json) : HttpResp := ⟨200, Json.arr l⟩

/-- The request `get_integrations` issues. -/
def integrationsRequest (c : Client) : Request :=
  ⟨apiIntegrations c, [], [("X-TrackerToken", PyVal.str c.apiToken)]⟩

/-- The request `get_integration_stories` issues for the integration id
`n`. -/
def integrationStoriesRequest (c : Client) (n : Int) : Request :=
  ⟨apiIntegrationStories c (PyVal.int n), [("exclude_linked", PyVal.str "true")],
    [("X-TrackerToken", PyVal.str c.apiToken)]⟩

/-- The request the pagination loop issues for a given cursor. -/
def loopRequest (c : Client) (endpoint : String) (base : Dict) (limit offset : Int) :
    Request :=
  builtRequest c endpoint (some (cursorDict base limit offset)) true

/-- A concrete index-free server used as a witness: its first page
(offset 0) carries one record and announces `pagination.limit = 2`; every
later offset gets an empty page. -/
def onePageServer : Server1 := fun r =>
  if reqOffsetI r = 0 then some ⟨200, pageBody [Json.int 1] (some 2)⟩
  else some ⟨200, pageBody [] (some 2)⟩

/-- A concrete index-free server used as a witness: its first page
(offset 0) carries two records and announces `pagination.limit = 3`; every
later offset gets an empty page. -/
def twoRecordServer : Server1 := fun r =>
  if reqOffsetI r = 0 then some ⟨200, pageBody [Json.int 1, Json.int 2] (some 3)⟩
  else some ⟨200, pageBody [] (some 3)⟩

theorem dictGet_dictSet_self (d : Dict) (k : String) (v : PyVal) :
    dictGet (dictSet d k v) k = some v := by
  induction d with
  | nil => simp [dictSet, dictGet]
  | cons p rest ih =>
    obtain ⟨k', v'⟩ := p
    by_cases h : k' = k
    · subst h; simp [dictSet, dictGet]
    · simp [dictSet, dictGet, h, ih]

theorem dictGet_dictSet_ne (d : Dict) (k k2 : String) (v : PyVal) (h : k2 ≠ k) :
    dictGet (dictSet d k v) k2 = dictGet d k2 := by
  induction d with
  | nil => simp [dictSet, dictGet, Ne.symm h]
  | cons p rest ih =>
    obtain ⟨k', v'⟩ := p
    by_cases h1 : k' = k
    · subst h1; simp [dictSet, dictGet, Ne.symm h]
    · by_cases h2 : k' = k2 <;> simp [dictSet, dictGet, h, h1, h2, ih]

theorem transportGet_snd (srv : Server) (k : Nat) (c : Client) (ep : String)
    (qs : Option Dict) (we : Bool) :
    (transportGet srv k c ep qs we).2 = builtRequest c ep qs we := by
  unfold transportGet
  cases h : srv k (builtRequest c ep qs we) <;> simp [h]
  split <;> rfl

theorem transportGet_of_some_ok (srv : Server) (k : Nat) (c : Client) (ep : String)
    (qs : Option Dict) (we : Bool) (resp : HttpResp)
    (h : srv k (builtRequest c ep qs we) = some resp) (hok : okStatus resp.status = true) :
    (transportGet srv k c ep qs we).1 = Except.ok resp.body := by
  unfold transportGet
  simp [h, hok]

theorem transportGet_of_some_bad (srv : Server) (k : Nat) (c : Client) (ep : String)
    (qs : Option Dict) (we : Bool) (resp : HttpResp)
    (h : srv k (builtRequest c ep qs we) = some resp) (hok : okStatus resp.status = false) :
    (transportGet srv k c ep qs we).1 =
      Except.error (PyErr.apiError ("GET " ++ ep ++ " " ++ toString resp.status)) := by
  unfold transportGet
  simp [h, hok]

theorem transportGet_of_none (srv : Server) (k : Nat) (c : Client) (ep : String)
    (qs : Option Dict) (we : Bool)
    (h : srv k (builtRequest c ep qs we) = Option.none) :
    (transportGet srv k c ep qs we).1 =
      Except.error (PyErr.attributeError "NoneType object has no attribute status_code") := by
  unfold transportGet
  simp [h]

theorem transportGet_ok_inv (srv : Server) (k : Nat) (c : Client) (ep : String)
    (qs : Option Dict) (we : Bool) (body : Json)
    (h : (transportGet srv k c ep qs we).1 = Except.ok body) :
    ∃ resp, srv k (builtRequest c ep qs we) = some resp ∧
      okStatus resp.status = true ∧ resp.body = body := by
  unfold transportGet at h
  cases h2 : srv k (builtRequest c ep qs we) with
  | none => simp [h2] at h
  | some resp =>
    simp [h2] at h
    cases h3 : okStatus resp.status with
    | false => simp [h3] at h
    | true => exact ⟨resp, rfl, h3, by simpa [h3] using h⟩

theorem loopRequest_params_limit (c : Client) (ep : String) (base : Dict)
    (limit offset : Int) :
    dictGet (loopRequest c ep base limit offset).params "limit" = some (PyVal.int limit) := by
  show dictGet (dictSet (cursorDict base limit offset) "envelope" (PyVal.str "true")) "limit" =
    some (PyVal.int limit)
  rw [dictGet_dictSet_ne _ _ _ _ (by decide)]
  unfold cursorDict
  rw [dictGet_dictSet_ne _ _ _ _ (by decide), dictGet_dictSet_self]

theorem loopRequest_params_offset (c : Client) (ep : String) (base : Dict)
    (limit offset : Int) :
    dictGet (loopRequest c ep base limit offset).params "offset" = some (PyVal.int offset) := by
  show dictGet (dictSet (cursorDict base limit offset) "envelope" (PyVal.str "true")) "offset" =
    some (PyVal.int offset)
  rw [dictGet_dictSet_ne _ _ _ _ (by decide)]
  unfold cursorDict
  rw [dictGet_dictSet_self]

theorem loopRequest_params_envelope (c : Client) (ep : String) (base : Dict)
    (limit offset : Int) :
    dictGet (loopRequest c ep base limit offset).params "envelope" =
      some (PyVal.str "true") := by
  show dictGet (dictSet (cursorDict base limit offset) "envelope" (PyVal.str "true")) "envelope" =
    some (PyVal.str "true")
  rw [dictGet_dictSet_self]

theorem loopRequest_params_frame (c : Client) (ep : String) (base : Dict)
    (limit offset : Int) (k2 : String)
    (h1 : k2 ≠ "limit") (h2 : k2 ≠ "offset") (h3 : k2 ≠ "envelope") :
    dictGet (loopRequest c ep base limit offset).params k2 = dictGet base k2 := by
  show dictGet (dictSet (cursorDict base limit offset) "envelope" (PyVal.str "true")) k2 =
    dictGet base k2
  rw [dictGet_dictSet_ne _ _ _ _ h3]
  unfold cursorDict
  rw [dictGet_dictSet_ne _ _ _ _ h2, dictGet_dictSet_ne _ _ _ _ h1]

theorem reqLimitI_loopRequest (c : Client) (ep : String) (base : Dict)
    (limit offset : Int) : reqLimitI (loopRequest c ep base limit offset) = limit := by
  unfold reqLimitI
  rw [loopRequest_params_limit]

theorem reqOffsetI_loopRequest (c : Client) (ep : String) (base : Dict)
    (limit offset : Int) : reqOffsetI (loopRequest c ep base limit offset) = offset := by
  unfold reqOffsetI
  rw [loopRequest_params_offset]

theorem loopRequest_endpoint (c : Client) (ep : String) (base : Dict)
    (limit offset : Int) : (loopRequest c ep base limit offset).endpoint = ep := rfl

theorem getAllLoop_extend (srv : Server) (c : Client) (ep : String) (base : Dict) :
    ∀ fuel limit offset acc k reqs out,
      getAllLoop srv c ep base fuel limit offset acc k reqs = some out →
      ∃ newReqs, out.2.2 = reqs ++ newReqs ∧ newReqs ≠ [] ∧
        out.2.1 = k + newReqs.length := by
  intro fuel
  induction fuel with
  | zero => intro limit offset acc k reqs out h; simp [getAllLoop] at h
  | succ fuel ih =>
    intro limit offset acc k reqs out h
    cases htg : (transportGet srv k c ep (some (cursorDict base limit offset)) true).1 with
    | error e =>
      simp only [getAllLoop, htg] at h
      obtain rfl := Option.some.inj h
      exact ⟨[(transportGet srv k c ep (some (cursorDict base limit offset)) true).2],
        rfl, by simp, by simp⟩
    | ok body =>
      cases hd : envData body with
      | none =>
        simp only [getAllLoop, htg, hd] at h
        obtain rfl := Option.some.inj h
        exact ⟨[(transportGet srv k c ep (some (cursorDict base limit offset)) true).2],
          rfl, by simp, by simp⟩
      | some l =>
        cases hl : l.isEmpty with
        | true =>
          simp only [getAllLoop, htg, hd, hl] at h
          rw [if_pos trivial] at h
          obtain rfl := Option.some.inj h
          exact ⟨[(transportGet srv k c ep (some (cursorDict base limit offset)) true).2],
            rfl, by simp, by simp⟩
        | false =>
          simp only [getAllLoop, htg, hd, hl] at h
          rw [if_neg Bool.false_ne_true] at h
          obtain ⟨new', h1, h2, h3⟩ := ih _ _ _ _ _ _ h
          refine ⟨(transportGet srv k c ep (some (cursorDict base limit offset)) true).2 :: new',
            ?_, by simp, ?_⟩
          · simpa using h1
          · simp only [h3, List.length_cons]
            omega

theorem getAllLoop_chain (f : Server1) (c : Client) (ep : String) (base : Dict) :
    ∀ fuel limit offset acc k reqs out,
      getAllLoop (liftServer f) c ep base fuel limit offset acc k reqs = some out →
      ∃ newReqs, out.2.2 = reqs ++ newReqs ∧
        (∃ rest, newReqs = loopRequest c ep base limit offset :: rest) ∧
        List.Chain' (pageStep f) newReqs := by
  intro fuel
  induction fuel with
  | zero => intro limit offset acc k reqs out h; simp [getAllLoop] at h
  | succ fuel ih =>
    intro limit offset acc k reqs out h
    have hsnd : (transportGet (liftServer f) k c ep
        (some (cursorDict base limit offset)) true).2 = loopRequest c ep base limit offset :=
      transportGet_snd _ _ _ _ _ _
    cases htg : (transportGet (liftServer f) k c ep
        (some (cursorDict base limit offset)) true).1 with
    | error e =>
      simp only [getAllLoop, htg] at h
      obtain rfl := Option.some.inj h
      exact ⟨[loopRequest c ep base limit offset],
        by simp [hsnd], ⟨[], rfl⟩, List.chain'_singleton _⟩
    | ok body =>
      cases hd : envData body with
      | none =>
        simp only [getAllLoop, htg, hd] at h
        obtain rfl := Option.some.inj h
        exact ⟨[loopRequest c ep base limit offset],
          by simp [hsnd], ⟨[], rfl⟩, List.chain'_singleton _⟩
      | some l =>
        cases hl : l.isEmpty with
        | true =>
          simp only [getAllLoop, htg, hd, hl] at h
          rw [if_pos trivial] at h
          obtain rfl := Option.some.inj h
          exact ⟨[loopRequest c ep base limit offset],
            by simp [hsnd], ⟨[], rfl⟩, List.chain'_singleton _⟩
        | false =>
          simp only [getAllLoop, htg, hd, hl] at h
          rw [if_neg Bool.false_ne_true] at h
          rw [hsnd] at h
          obtain ⟨new', h1, ⟨rest', hrest⟩, h3⟩ := ih _ _ _ _ _ _ h
          obtain ⟨resp, hresp, hok, hbody⟩ := transportGet_ok_inv _ _ _ _ _ _ _ htg
          refine ⟨loopRequest c ep base limit offset :: new', by simpa using h1,
            ⟨new', rfl⟩, ?_⟩
          rw [hrest]
          rw [hrest] at h3
          refine List.Chain'.cons ?_ h3
          refine ⟨resp, hresp, hok, ⟨l, by rw [hbody, hd], by simpa using hl⟩, ?_, ?_⟩
          · rw [hbody, reqLimitI_loopRequest]
          · rw [hbody, reqOffsetI_loopRequest, reqOffsetI_loopRequest]

theorem ceilDiv_zero_left (c : Nat) : ceilDiv 0 c = 0 := by
  match c with
  | 0 => rfl
  | c + 1 =>
    unfold ceilDiv
    apply Nat.div_eq_of_lt
    omega

theorem ceilDiv_eq (n c : Nat) (hc : 0 < c) (hn : 0 < n) :
    ceilDiv n c = (n - 1) / c + 1 := by
  unfold ceilDiv
  have h : n + c - 1 = (n - 1) + c := by omega
  rw [h, Nat.add_div_right _ hc]

theorem ceilDiv_step (n c : Nat) (hc : 0 < c) (hn : 0 < n) :
    ceilDiv n c = ceilDiv (n - c) c + 1 := by
  rcases le_or_lt n c with h | h
  · have h1 : n - c = 0 := by omega
    rw [h1, ceilDiv_zero_left, ceilDiv_eq n c hc hn, Nat.div_eq_of_lt (by omega)]
  · rw [ceilDiv_eq n c hc hn, ceilDiv_eq (n - c) c hc (by omega)]
    have h2 : n - 1 = (n - c - 1) + c := by omega
    rw [h2, Nat.add_div_right _ hc]

theorem envData_pageBody (l : List Json) (pl : Option Int) :
    envData (pageBody l pl) = some l := by
  cases pl <;> rfl

theorem envPagLimit_pageBody_some (l : List Json) (n : Int) :
    envPagLimit (pageBody l (some n)) = some n := rfl

theorem envPagLimit_pageBody_none (l : List Json) :
    envPagLimit (pageBody l Option.none) = Option.none := rfl

theorem nonemptyPage_iff (r : HttpResp) :
    nonemptyPage r = true ↔
      okStatus r.status = true ∧ ∃ x xs, envData r.body = some (x :: xs) := by
  unfold nonemptyPage
  cases hok : okStatus r.status
  · cases hd : envData r.body with
    | none => simp
    | some l => cases l <;> simp
  · cases hd : envData r.body with
    | none => simp
    | some l => cases l <;> simp

theorem getAllLoop_error_at (c : Client) (ep : String) (base : Dict) :
    ∀ j rs fuel limit offset acc k reqs rb,
      (∀ i, i < j → ∃ r, rs.get? (k + i) = some r ∧ nonemptyPage r = true) →
      rs.get? (k + j) = some rb →
      okStatus rb.status = false →
      j < fuel →
      ∃ newReqs, newReqs.length = j + 1 ∧
        getAllLoop (cannedServer rs) c ep base fuel limit offset acc k reqs =
          some (Except.error (PyErr.apiError ("GET " ++ ep ++ " " ++ toString rb.status)),
            k + j + 1, reqs ++ newReqs) := by
  intro j
  induction j with
  | zero =>
    intro rs fuel limit offset acc k reqs rb hg hb hok hfuel
    obtain ⟨f, rfl⟩ : ∃ f, fuel = f + 1 := ⟨fuel - 1, by omega⟩
    have hresp : cannedServer rs k
        (builtRequest c ep (some (cursorDict base limit offset)) true) = some rb := hb
    have htg := transportGet_of_some_bad (cannedServer rs) k c ep
      (some (cursorDict base limit offset)) true rb hresp hok
    refine ⟨[(transportGet (cannedServer rs) k c ep
      (some (cursorDict base limit offset)) true).2], by simp, ?_⟩
    simp only [getAllLoop, htg]
  | succ j ih =>
    intro rs fuel limit offset acc k reqs rb hg hb hok hfuel
    obtain ⟨f, rfl⟩ : ∃ f, fuel = f + 1 := ⟨fuel - 1, by omega⟩
    obtain ⟨r0, hr0, hne⟩ := hg 0 (by omega)
    rw [Nat.add_zero] at hr0
    obtain ⟨hok0, x, xs, hd0⟩ := (nonemptyPage_iff r0).mp hne
    have hresp : cannedServer rs k
        (builtRequest c ep (some (cursorDict base limit offset)) true) = some r0 := hr0
    have htg := transportGet_of_some_ok (cannedServer rs) k c ep
      (some (cursorDict base limit offset)) true r0 hresp hok0
    have hg' : ∀ i, i < j → ∃ r, rs.get? (k + 1 + i) = some r ∧ nonemptyPage r = true := by
      intro i hi
      have h := hg (i + 1) (by omega)
      have he : k + (i + 1) = k + 1 + i := by omega
      rwa [he] at h
    have hb' : rs.get? (k + 1 + j) = some rb := by
      have he : k + (j + 1) = k + 1 + j := by omega
      rwa [he] at hb
    obtain ⟨new', hlen', heq'⟩ := ih rs f
      ((envPagLimit r0.body).getD DEFAULT_PAGE_LIMIT)
      (offset + (envPagLimit r0.body).getD DEFAULT_PAGE_LIMIT)
      (acc ++ (x :: xs)) (k + 1)
      (reqs ++ [(transportGet (cannedServer rs) k c ep
        (some (cursorDict base limit offset)) true).2])
      rb hg' hb' hok (by omega)
    refine ⟨(transportGet (cannedServer rs) k c ep
      (some (cursorDict base limit offset)) true).2 :: new', by simp [hlen'], ?_⟩
    simp only [getAllLoop, htg, hd0]
    rw [if_neg (by simp)]
    rw [heq']
    have he2 : k + 1 + j + 1 = k + (j + 1) + 1 := by omega
    rw [he2]
    simp

theorem getAllLoop_capped (c : Client) (ep : String) (base : Dict)
    (recs : List Json) (cap : Int) (hcap : 1 ≤ cap) :
    ∀ fuel limit offset acc k reqs,
      cap ≤ limit → 0 ≤ offset →
      (recs.drop offset.toNat).length + 1 ≤ fuel →
      ∃ newReqs,
        getAllLoop (liftServer (cappedServer recs cap)) c ep base fuel limit offset acc k reqs
          = some (Except.ok (acc ++ recs.drop offset.toNat),
              k + (ceilDiv (recs.drop offset.toNat).length cap.toNat + 1),
              reqs ++ newReqs) ∧
        newReqs.length = ceilDiv (recs.drop offset.toNat).length cap.toNat + 1 ∧
        ∀ r, newReqs.getLast? = some r →
          envData (cappedRespond recs cap r).body = some [] := by
  intro fuel
  induction fuel with
  | zero =>
    intro limit offset acc k reqs hlim hoff hfuel
    omega
  | succ f ih =>
    intro limit offset acc k reqs hlim hoff hfuel
    have hresp : liftServer (cappedServer recs cap) k
        (builtRequest c ep (some (cursorDict base limit offset)) true) =
        some (cappedRespond recs cap (loopRequest c ep base limit offset)) := rfl
    have hok : okStatus (cappedRespond recs cap
        (loopRequest c ep base limit offset)).status = true := rfl
    have htg := transportGet_of_some_ok (liftServer (cappedServer recs cap)) k c ep
      (some (cursorDict base limit offset)) true _ hresp hok
    have hsnd : (transportGet (liftServer (cappedServer recs cap)) k c ep
        (some (cursorDict base limit offset)) true).2 = loopRequest c ep base limit offset :=
      transportGet_snd _ _ _ _ _ _
    have hbody : (cappedRespond recs cap (loopRequest c ep base limit offset)).body =
        pageBody ((recs.drop offset.toNat).take cap.toNat) (some cap) := by
      unfold cappedRespond
      rw [reqOffsetI_loopRequest, reqLimitI_loopRequest, min_eq_right hlim]
    have hd : envData (cappedRespond recs cap (loopRequest c ep base limit offset)).body =
        some ((recs.drop offset.toNat).take cap.toNat) := by
      rw [hbody, envData_pageBody]
    have hpl : envPagLimit (cappedRespond recs cap
        (loopRequest c ep base limit offset)).body = some cap := by
      rw [hbody]; exact envPagLimit_pageBody_some _ _
    cases hrem : recs.drop offset.toNat with
    | nil =>
      rw [hrem] at hd
      simp only [List.take_nil] at hd
      refine ⟨[loopRequest c ep base limit offset], ?_, ?_⟩
      · simp only [getAllLoop, htg, hd]
        rw [if_pos (by simp : ([] : List Json).isEmpty = true)]
        simp [hsnd, ceilDiv_zero_left]
      · refine ⟨by simp [hrem, ceilDiv_zero_left], ?_⟩
        intro r hr
        simp only [List.getLast?_singleton, Option.some.injEq] at hr
        subst hr
        rw [hd]
    | cons x xs =>
      have hc0 : 0 < cap.toNat := by omega
      have hcap0 : (0 : Int) ≤ cap := by omega
      obtain ⟨c', hc'⟩ : ∃ c', cap.toNat = c' + 1 := ⟨cap.toNat - 1, by omega⟩
      have htake : (recs.drop offset.toNat).take cap.toNat = x :: xs.take c' := by
        rw [hrem, hc']
        rfl
      have hdropeq : recs.drop (offset + cap).toNat = (x :: xs).drop cap.toNat := by
        rw [Int.toNat_add hoff hcap0, ← List.drop_drop, hrem]
      have hlen : (recs.drop (offset + cap).toNat).length + 1 ≤ f := by
        rw [hdropeq]
        simp only [List.length_drop, List.length_cons]
        have := hfuel
        rw [hrem] at this
        simp only [List.length_cons] at this
        omega
      obtain ⟨new', heq', hlen', hlast'⟩ := ih cap (offset + cap)
        (acc ++ ((recs.drop offset.toNat).take cap.toNat)) (k + 1)
        (reqs ++ [loopRequest c ep base limit offset]) (le_refl cap) (by omega) hlen
      refine ⟨loopRequest c ep base limit offset :: new', ?_, ?_, ?_⟩
      · simp only [getAllLoop, htg, hd, htake]
        rw [if_neg (by simp)]
        rw [hsnd, hpl]
        simp only [Option.getD_some, ← htake]
        rw [heq']
        have harith : k + 1 + (ceilDiv (recs.drop (offset + cap).toNat).length cap.toNat + 1) =
            k + (ceilDiv (recs.drop offset.toNat).length cap.toNat + 1) := by
          rw [hdropeq, hrem]
          simp only [List.length_drop, List.length_cons]
          rw [ceilDiv_step (xs.length + 1) cap.toNat hc0 (by omega)]
          omega
        rw [harith]
        have hlist : (acc ++ (recs.drop offset.toNat).take cap.toNat) ++
            recs.drop (offset + cap).toNat = acc ++ recs.drop offset.toNat := by
          rw [hdropeq, ← hrem, List.append_assoc, List.take_append_drop]
        rw [hlist]
        simp only [List.append_assoc, List.singleton_append]
        rw [hrem]
      · have hceil := ceilDiv_step (xs.length + 1) cap.toNat hc0 (by omega)
        simp only [List.length_cons, hlen', hdropeq, List.length_drop] at hceil ⊢
        omega
      · intro r hr
        have hne : new' ≠ [] := by
          intro hcontra
          rw [hcontra] at hlen'
          simp at hlen'
        rw [← List.singleton_append, List.getLast?_append_of_ne_nil _ hne] at hr
        exact hlast' r hr

theorem getAll_empty_first (srv : Server) (c : Client) (ep : String)
    (qs : Option Dict) (fuel k0 : Nat) (resp : HttpResp)
    (hfuel : 1 ≤ fuel)
    (hresp : srv k0 (loopRequest c ep (qs.getD []) DEFAULT_PAGE_LIMIT 0) = some resp)
    (hok : okStatus resp.status = true)
    (hdata : envData resp.body = some []) :
    getAll srv c ep qs fuel k0 =
      some (Except.ok [], k0 + 1, [loopRequest c ep (qs.getD []) DEFAULT_PAGE_LIMIT 0]) := by
  obtain ⟨f, rfl⟩ : ∃ f, fuel = f + 1 := ⟨fuel - 1, by omega⟩
  have htg := transportGet_of_some_ok srv k0 c ep
    (some (cursorDict (qs.getD []) DEFAULT_PAGE_LIMIT 0)) true resp hresp hok
  have hsnd : (transportGet srv k0 c ep
      (some (cursorDict (qs.getD []) DEFAULT_PAGE_LIMIT 0)) true).2 =
      loopRequest c ep (qs.getD []) DEFAULT_PAGE_LIMIT 0 := transportGet_snd _ _ _ _ _ _
  unfold getAll
  simp only [getAllLoop, htg, hdata]
  rw [if_pos (by simp : ([] : List Json).isEmpty = true)]
  simp [hsnd]

theorem getAllLoop_requests_shape (srv : Server) (c : Client) (ep : String) (base : Dict) :
    ∀ fuel limit offset acc k reqs out,
      getAllLoop srv c ep base fuel limit offset acc k reqs = some out →
      ∀ r ∈ out.2.2, r ∈ reqs ∨ ∃ l o, r = loopRequest c ep base l o := by
  intro fuel
  induction fuel with
  | zero => intro limit offset acc k reqs out h; simp [getAllLoop] at h
  | succ fuel ih =>
    intro limit offset acc k reqs out h
    have hsnd : (transportGet srv k c ep (some (cursorDict base limit offset)) true).2 =
        loopRequest c ep base limit offset := transportGet_snd _ _ _ _ _ _
    cases htg : (transportGet srv k c ep (some (cursorDict base limit offset)) true).1 with
    | error e =>
      simp only [getAllLoop, htg] at h
      obtain rfl := Option.some.inj h
      intro r hr
      simp only [hsnd] at hr
      rcases List.mem_append.mp hr with h1 | h1
      · exact Or.inl h1
      · exact Or.inr ⟨limit, offset, by simpa using h1⟩
    | ok body =>
      cases hd : envData body with
      | none =>
        simp only [getAllLoop, htg, hd] at h
        obtain rfl := Option.some.inj h
        intro r hr
        simp only [hsnd] at hr
        rcases List.mem_append.mp hr with h1 | h1
        · exact Or.inl h1
        · exact Or.inr ⟨limit, offset, by simpa using h1⟩
      | some l =>
        cases hl : l.isEmpty with
        | true =>
          simp only [getAllLoop, htg, hd, hl] at h
          rw [if_pos trivial] at h
          obtain rfl := Option.some.inj h
          intro r hr
          simp only [hsnd] at hr
          rcases List.mem_append.mp hr with h1 | h1
          · exact Or.inl h1
          · exact Or.inr ⟨limit, offset, by simpa using h1⟩
        | false =>
          simp only [getAllLoop, htg, hd, hl] at h
          rw [if_neg Bool.false_ne_true] at h
          intro r hr
          rcases ih _ _ _ _ _ _ h r hr with h1 | h1
          · simp only [hsnd] at h1
            rcases List.mem_append.mp h1 with h2 | h2
            · exact Or.inl h2
            · exact Or.inr ⟨limit, offset, by simpa using h2⟩
          · exact Or.inr h1

theorem getAllLoop_head (srv : Server) (c : Client) (ep : String) (base : Dict)
    (fuel : Nat) (limit offset : Int) (acc : List Json) (k : Nat) (reqs : List Request)
    (out : Except PyErr (List Json) × Nat × List Request)
    (h : getAllLoop srv c ep base fuel limit offset acc k reqs = some out) :
    ∃ rest, out.2.2 = reqs ++ (loopRequest c ep base limit offset :: rest) := by
  match fuel with
  | 0 => simp [getAllLoop] at h
  | fuel + 1 =>
    have hsnd : (transportGet srv k c ep (some (cursorDict base limit offset)) true).2 =
        loopRequest c ep base limit offset := transportGet_snd _ _ _ _ _ _
    cases htg : (transportGet srv k c ep (some (cursorDict base limit offset)) true).1 with
    | error e =>
      simp only [getAllLoop, htg] at h
      obtain rfl := Option.some.inj h
      exact ⟨[], by simp [hsnd]⟩
    | ok body =>
      cases hd : envData body with
      | none =>
        simp only [getAllLoop, htg, hd] at h
        obtain rfl := Option.some.inj h
        exact ⟨[], by simp [hsnd]⟩
      | some l =>
        cases hl : l.isEmpty with
        | true =>
          simp only [getAllLoop, htg, hd, hl] at h
          rw [if_pos trivial] at h
          obtain rfl := Option.some.inj h
          exact ⟨[], by simp [hsnd]⟩
        | false =>
          simp only [getAllLoop, htg, hd, hl] at h
          rw [if_neg Bool.false_ne_true] at h
          obtain ⟨new', h1, _, _⟩ := getAllLoop_extend srv c ep base _ _ _ _ _ _ _ h
          exact ⟨new', by simp [h1, hsnd]⟩

theorem getAllLoop_pages (c : Client) (ep : String) (base : Dict) :
    ∀ (pages : List (List Json)) (rs : List HttpResp) fuel limit offset acc k reqs,
      (∀ i, i < pages.length → ∃ r, rs.get? (k + i) = some r ∧
        okStatus r.status = true ∧ envData r.body = some (pages.getD i []) ∧
        pages.getD i [] ≠ []) →
      (∃ r, rs.get? (k + pages.length) = some r ∧ okStatus r.status = true ∧
        envData r.body = some []) →
      pages.length + 1 ≤ fuel →
      ∃ newReqs, newReqs.length = pages.length + 1 ∧
        getAllLoop (cannedServer rs) c ep base fuel limit offset acc k reqs =
          some (Except.ok (acc ++ pages.flatten), k + (pages.length + 1), reqs ++ newReqs) := by
  intro pages
  induction pages with
  | nil =>
    intro rs fuel limit offset acc k reqs hg hend hfuel
    obtain ⟨f, rfl⟩ : ∃ f, fuel = f + 1 := ⟨fuel - 1, by omega⟩
    obtain ⟨r0, hr0, hok0, hd0⟩ := hend
    simp only [List.length_nil, Nat.add_zero] at hr0
    have hresp : cannedServer rs k
        (builtRequest c ep (some (cursorDict base limit offset)) true) = some r0 := hr0
    have htg := transportGet_of_some_ok (cannedServer rs) k c ep
      (some (cursorDict base limit offset)) true r0 hresp hok0
    refine ⟨[(transportGet (cannedServer rs) k c ep
      (some (cursorDict base limit offset)) true).2], by simp, ?_⟩
    simp only [getAllLoop, htg, hd0]
    rw [if_pos (by simp : ([] : List Json).isEmpty = true)]
    simp
  | cons p ps ih =>
    intro rs fuel limit offset acc k reqs hg hend hfuel
    obtain ⟨f, rfl⟩ : ∃ f, fuel = f + 1 := ⟨fuel - 1, by omega⟩
    obtain ⟨r0, hr0, hok0, hd0, hne0⟩ := hg 0 (by simp)
    rw [Nat.add_zero] at hr0
    simp only [List.getD_cons_zero] at hd0 hne0
    have hresp : cannedServer rs k
        (builtRequest c ep (some (cursorDict base limit offset)) true) = some r0 := hr0
    have htg := transportGet_of_some_ok (cannedServer rs) k c ep
      (some (cursorDict base limit offset)) true r0 hresp hok0
    have hg' : ∀ i, i < ps.length → ∃ r, rs.get? (k + 1 + i) = some r ∧
        okStatus r.status = true ∧ envData r.body = some (ps.getD i []) ∧
        ps.getD i [] ≠ [] := by
      intro i hi
      obtain ⟨r, hr, h1, h2, h3⟩ := hg (i + 1) (by simpa using Nat.succ_lt_succ hi)
      have he : k + (i + 1) = k + 1 + i := by omega
      rw [he] at hr
      exact ⟨r, hr, h1, by simpa using h2, by simpa using h3⟩
    have hend' : ∃ r, rs.get? (k + 1 + ps.length) = some r ∧ okStatus r.status = true ∧
        envData r.body = some [] := by
      obtain ⟨r, hr, h1, h2⟩ := hend
      have he : k + (p :: ps).length = k + 1 + ps.length := by simp; omega
      rw [he] at hr
      exact ⟨r, hr, h1, h2⟩
    obtain ⟨new', hlen', heq'⟩ := ih rs f
      ((envPagLimit r0.body).getD DEFAULT_PAGE_LIMIT)
      (offset + (envPagLimit r0.body).getD DEFAULT_PAGE_LIMIT)
      (acc ++ p) (k + 1)
      (reqs ++ [(transportGet (cannedServer rs) k c ep
        (some (cursorDict base limit offset)) true).2]) hg' hend' (by simpa using hfuel)
    refine ⟨(transportGet (cannedServer rs) k c ep
      (some (cursorDict base limit offset)) true).2 :: new', by simp [hlen'], ?_⟩
    simp only [getAllLoop, htg, hd0]
    rw [if_neg (by simp [hne0])]
    rw [heq']
    have he2 : k + 1 + (ps.length + 1) = k + ((p :: ps).length + 1) := by simp; omega
    rw [he2]
    simp [List.append_assoc]

/-- C1 (claim as stated is falsified; this closed run refutes the call-count
formula): a server that returns N = 2 records in pages of size 1 — each
within the limit in force, which stays at the default 1000 throughout, as
the recorded request limits show — followed by an empty page, makes
`_get_all` issue 3 GET calls and return both records, whereas the claim's
formula ⌈N / limit⌉ + 1 = ⌈2 / 1000⌉ + 1 predicts 2 calls. -/
theorem getAll_count_formula_counterexample :
    (getAll (cannedServer [⟨200, pageBody [Json.int 1] Option.none⟩,
        ⟨200, pageBody [Json.int 2] Option.none⟩,
        ⟨200, pageBody [] Option.none⟩])
      (mkClient "t" Option.none (some 7) Option.none) "E" Option.none 5 0).map
        (fun out => (out.1, out.2.1, out.2.2.map reqLimitI)) =
      some (Except.ok [Json.int 1, Json.int 2], 3, [1000, 1000, 1000]) ∧
    ceilDiv 2 1000 + 1 = 2 ∧ (3 : Nat) ≠ 2 :=
  ⟨rfl, rfl, by decide⟩

/-- C1 (amended): (i) for any sequence of nonempty pages followed by an
empty page, `_get_all` returns exactly the concatenation of the pages in
server order after `pages + 1` calls, the last being the empty-page call;
(ii) the call count equals ⌈N / cap⌉ + 1 for a server that fills every
page to its enforced cap `cap ≤ limit` (the claim's ceiling formula is
correct exactly when every non-final page is full); (iii) the concrete
scenario `[⟨data := [a,b], limit := 2⟩, ⟨data := [d], limit := 2⟩,
⟨data := [], limit := 2⟩]` returns `[a,b,d]` after exactly 3 calls;
(iv) an empty first page yields the empty result after exactly 1 call. -/
theorem getAll_termination_and_count :
    (∀ (c : Client) (ep : String) (qs : Option Dict) (pages : List (List Json))
        (rs : List HttpResp) (fuel k0 : Nat),
      (∀ i, i < pages.length → ∃ r, rs.get? (k0 + i) = some r ∧
        okStatus r.status = true ∧ envData r.body = some (pages.getD i []) ∧
        pages.getD i [] ≠ []) →
      (∃ r, rs.get? (k0 + pages.length) = some r ∧ okStatus r.status = true ∧
        envData r.body = some []) →
      pages.length + 1 ≤ fuel →
      ∃ reqs, reqs.length = pages.length + 1 ∧
        getAll (cannedServer rs) c ep qs fuel k0 =
          some (Except.ok pages.flatten, k0 + (pages.length + 1), reqs)) ∧
    (∀ (c : Client) (ep : String) (qs : Option Dict) (recs : List Json) (cap : Int)
        (fuel k0 : Nat),
      1 ≤ cap → cap ≤ DEFAULT_PAGE_LIMIT → recs.length + 1 ≤ fuel →
      ∃ reqs, getAll (liftServer (cappedServer recs cap)) c ep qs fuel k0 =
          some (Except.ok recs, k0 + (ceilDiv recs.length cap.toNat + 1), reqs) ∧
        reqs.length = ceilDiv recs.length cap.toNat + 1 ∧
        ∀ r, reqs.getLast? = some r →
          envData (cappedRespond recs cap r).body = some []) ∧
    (∀ (c : Client) (ep : String) (a b d : Json),
      getAll (cannedServer [⟨200, pageBody [a, b] (some 2)⟩, ⟨200, pageBody [d] (some 2)⟩,
          ⟨200, pageBody [] (some 2)⟩]) c ep Option.none 4 0 =
        some (Except.ok [a, b, d], 3,
          [loopRequest c ep [] 1000 0, loopRequest c ep [] 2 2, loopRequest c ep [] 2 4])) ∧
    (∀ (srv : Server) (c : Client) (ep : String) (qs : Option Dict) (fuel k0 : Nat)
        (resp : HttpResp),
      1 ≤ fuel →
      srv k0 (loopRequest c ep (qs.getD []) DEFAULT_PAGE_LIMIT 0) = some resp →
      okStatus resp.status = true → envData resp.body = some [] →
      getAll srv c ep qs fuel k0 =
        some (Except.ok [], k0 + 1, [loopRequest c ep (qs.getD []) DEFAULT_PAGE_LIMIT 0])) := by
  refine ⟨?_, ?_, ?_, ?_⟩
  · intro c ep qs pages rs fuel k0 hg hend hfuel
    obtain ⟨new, hlen, heq⟩ :=
      getAllLoop_pages c ep (qs.getD []) pages rs fuel DEFAULT_PAGE_LIMIT 0 [] k0 [] hg hend hfuel
    refine ⟨new, hlen, ?_⟩
    unfold getAll
    rw [heq]
    simp
  · intro c ep qs recs cap fuel k0 h1 h2 h3
    obtain ⟨new, heq, hlen, hlast⟩ := getAllLoop_capped c ep (qs.getD []) recs cap h1 fuel
      DEFAULT_PAGE_LIMIT 0 [] k0 [] h2 (le_refl 0) (by simpa using h3)
    simp only [Int.toNat_zero, List.drop_zero, List.nil_append] at heq hlen hlast
    exact ⟨new, heq, hlen, hlast⟩
  · intro c ep a b d
    rfl
  · intro srv c ep qs fuel k0 resp h1 h2 h3 h4
    exact getAll_empty_first srv c ep qs fuel k0 resp h1 h2 h3 h4

/-- Witness for C1: the amended theorem applied to a concrete capped
server holding three records under cap 2 — ⌈3/2⌉ + 1 = 3 calls. -/
theorem getAll_termination_and_count_witness :
    (1 : Int) ≤ 2 ∧ (2 : Int) ≤ DEFAULT_PAGE_LIMIT ∧
    ([Json.int 5, Json.int 6, Json.int 7] : List Json).length + 1 ≤ 10 ∧
    (∃ reqs, getAll (liftServer (cappedServer [Json.int 5, Json.int 6, Json.int 7] 2))
        (mkClient "t" Option.none (some 7) Option.none) "E" Option.none 10 0 =
        some (Except.ok [Json.int 5, Json.int 6, Json.int 7],
          0 + (ceilDiv ([Json.int 5, Json.int 6, Json.int 7] : List Json).length
            (2 : Int).toNat + 1), reqs) ∧
      reqs.length = ceilDiv ([Json.int 5, Json.int 6, Json.int 7] : List Json).length
        (2 : Int).toNat + 1 ∧
      ∀ r, reqs.getLast? = some r →
        envData (cappedRespond [Json.int 5, Json.int 6, Json.int 7] 2 r).body = some []) :=
  ⟨by decide, by decide, by decide,
    getAll_termination_and_count.2.1 (mkClient "t" Option.none (some 7) Option.none)
      "E" Option.none [Json.int 5, Json.int 6, Json.int 7] 2 10 0
      (by decide) (by decide) (by decide)⟩

/-- C2 (claim as stated is falsified; this closed run refutes it): page 1
announces `pagination.limit = 2`, so the limit in force for page 2 is 2;
page 2's response carries no pagination object, and the claim says the
limit then stays 2 — but the recorded request limits are `[1000, 2, 1000]`:
the third request reverts to the client's original default 1000. -/
theorem getAll_limit_keep_counterexample :
    (getAll (cannedServer [⟨200, pageBody [Json.int 1] (some 2)⟩,
        ⟨200, pageBody [Json.int 2] Option.none⟩,
        ⟨200, pageBody [] Option.none⟩])
      (mkClient "t" Option.none (some 7) Option.none) "E" Option.none 5 0).map
        (fun out => out.2.2.map reqLimitI) = some [1000, 2, 1000] ∧
    envPagLimit (pageBody [Json.int 2] Option.none) = Option.none ∧
    (1000 : Int) ≠ 2 :=
  ⟨rfl, rfl, by decide⟩

/-- C2 (amended): within one `_get_all` run the first request carries the
default limit 1000, and after every page the next request's limit equals
`pagination.limit` from that page's response when the pagination object
and its `limit` field are present, and otherwise `DEFAULT_PAGE_LIMIT`
(1000) — i.e. it reverts to the default, rather than keeping the limit
currently in force, when the server omits pagination. -/
theorem getAll_limit_update (f : Server1) (c : Client) (ep : String)
    (qs : Option Dict) (fuel k0 : Nat)
    (out : Except PyErr (List Json) × Nat × List Request)
    (h : getAll (liftServer f) c ep qs fuel k0 = some out) :
    (∃ rest, out.2.2 = loopRequest c ep (qs.getD []) DEFAULT_PAGE_LIMIT 0 :: rest) ∧
    List.Chain' (pageStep f) out.2.2 := by
  unfold getAll at h
  obtain ⟨new, h1, ⟨rest, h2⟩, h3⟩ := getAllLoop_chain f c ep (qs.getD []) fuel _ _ _ _ _ _ h
  rw [List.nil_append] at h1
  rw [h1]
  exact ⟨⟨rest, h2⟩, h3⟩

/-- Witness for C2: the amended theorem applied to a concrete run of two
pages (one record, then the empty page). -/
theorem getAll_limit_update_witness :
    (∃ rest,
      ([loopRequest (mkClient "t" Option.none (some 7) Option.none) "E" [] 1000 0,
        loopRequest (mkClient "t" Option.none (some 7) Option.none) "E" [] 2 2] :
          List Request) =
        loopRequest (mkClient "t" Option.none (some 7) Option.none) "E"
          ((Option.none : Option Dict).getD []) DEFAULT_PAGE_LIMIT 0 :: rest) ∧
    List.Chain' (pageStep onePageServer)
      [loopRequest (mkClient "t" Option.none (some 7) Option.none) "E" [] 1000 0,
       loopRequest (mkClient "t" Option.none (some 7) Option.none) "E" [] 2 2] :=
  getAll_limit_update onePageServer (mkClient "t" Option.none (some 7) Option.none)
    "E" Option.none 3 0
    (Except.ok [Json.int 1], 2,
      [loopRequest (mkClient "t" Option.none (some 7) Option.none) "E" [] 1000 0,
       loopRequest (mkClient "t" Option.none (some 7) Option.none) "E" [] 2 2]) rfl

/-- C3: in one `_get_all` run the first request carries offset 0; between
any two consecutive requests, the later offset equals the earlier offset
plus the limit as updated from the earlier page's response (the
server-provided `pagination.limit` when present, else the default 1000);
and when every server-provided limit is nonnegative (the response-shape
contract: a page size), the offsets never decrease across the run. -/
theorem getAll_offset_advancement (f : Server1) (c : Client) (ep : String)
    (qs : Option Dict) (fuel k0 : Nat)
    (out : Except PyErr (List Json) × Nat × List Request)
    (h : getAll (liftServer f) c ep qs fuel k0 = some out) :
    (∃ r0 rest, out.2.2 = r0 :: rest ∧ reqOffsetI r0 = 0) ∧
    List.Chain' (pageStep f) out.2.2 ∧
    ((∀ r resp, f r = some resp →
        0 ≤ (envPagLimit resp.body).getD DEFAULT_PAGE_LIMIT) →
      List.Pairwise offsetLE out.2.2) := by
  unfold getAll at h
  obtain ⟨new, h1, ⟨rest, h2⟩, h3⟩ := getAllLoop_chain f c ep (qs.getD []) fuel _ _ _ _ _ _ h
  rw [List.nil_append] at h1
  rw [h1]
  refine ⟨⟨loopRequest c ep (qs.getD []) DEFAULT_PAGE_LIMIT 0, rest, h2,
    reqOffsetI_loopRequest _ _ _ _ _⟩, h3, ?_⟩
  intro hnn
  have hle : List.Chain' offsetLE new := by
    refine h3.imp ?_
    intro a b hab
    obtain ⟨resp, hfr, _, _, _, hoff⟩ := hab
    have hd := hnn a resp hfr
    unfold offsetLE
    omega
  exact List.chain'_iff_pairwise.mp hle

/-- Witness for C3: the theorem applied to a concrete run of two pages
(two records announced with limit 3, then the empty page). -/
theorem getAll_offset_advancement_witness :
    (∃ r0 rest,
      ([loopRequest (mkClient "t" Option.none (some 7) Option.none) "E" [] 1000 0,
        loopRequest (mkClient "t" Option.none (some 7) Option.none) "E" [] 3 3] :
          List Request) = r0 :: rest ∧ reqOffsetI r0 = 0) ∧
    List.Chain' (pageStep twoRecordServer)
      [loopRequest (mkClient "t" Option.none (some 7) Option.none) "E" [] 1000 0,
       loopRequest (mkClient "t" Option.none (some 7) Option.none) "E" [] 3 3] ∧
    ((∀ r resp, twoRecordServer r = some resp →
        0 ≤ (envPagLimit resp.body).getD DEFAULT_PAGE_LIMIT) →
      List.Pairwise offsetLE
        [loopRequest (mkClient "t" Option.none (some 7) Option.none) "E" [] 1000 0,
         loopRequest (mkClient "t" Option.none (some 7) Option.none) "E" [] 3 3]) :=
  getAll_offset_advancement twoRecordServer
    (mkClient "t" Option.none (some 7) Option.none) "E" Option.none 3 0
    (Except.ok [Json.int 1, Json.int 2], 2,
      [loopRequest (mkClient "t" Option.none (some 7) Option.none) "E" [] 1000 0,
       loopRequest (mkClient "t" Option.none (some 7) Option.none) "E" [] 3 3]) rfl

/-- C4: if the first `j` pages succeed with nonempty data and the fetch of
page `j + 1` gets a non-2xx response, `_get_all` stops right there (exactly
`j + 1` GET calls) and the overall outcome is the raised `ApiError` whose
message carries the endpoint and the status code — the records accumulated
from the earlier pages are discarded, not returned. -/
theorem getAll_error_aborts (rs : List HttpResp) (c : Client) (ep : String)
    (qs : Option Dict) (j fuel k0 : Nat) (rb : HttpResp)
    (hg : ∀ i, i < j → ∃ r, rs.get? (k0 + i) = some r ∧ nonemptyPage r = true)
    (hb : rs.get? (k0 + j) = some rb)
    (hok : okStatus rb.status = false)
    (hfuel : j < fuel) :
    ∃ newReqs, newReqs.length = j + 1 ∧
      getAll (cannedServer rs) c ep qs fuel k0 =
        some (Except.error (PyErr.apiError ("GET " ++ ep ++ " " ++ toString rb.status)),
          k0 + j + 1, newReqs) := by
  obtain ⟨new, hlen, heq⟩ := getAllLoop_error_at c ep (qs.getD []) j rs fuel
    DEFAULT_PAGE_LIMIT 0 [] k0 [] rb hg hb hok hfuel
  refine ⟨new, hlen, ?_⟩
  unfold getAll
  rw [heq]
  simp

/-- Witness for C4: the theorem applied to a concrete server whose first
page succeeds with one record and whose second answer is HTTP 404 for
endpoint `E`: the run raises `ApiError "GET E 404"` after exactly 2 calls
and the accumulated record is not returned. -/
theorem getAll_error_aborts_witness :
    ∃ newReqs, newReqs.length = 1 + 1 ∧
      getAll (cannedServer [⟨200, pageBody [Json.int 9] (some 2)⟩, ⟨404, Json.null⟩])
        (mkClient "t" Option.none (some 7) Option.none) "E" Option.none 3 0 =
        some (Except.error (PyErr.apiError ("GET " ++ "E" ++ " " ++ toString (404 : Int))),
          0 + 1 + 1, newReqs) :=
  getAll_error_aborts [⟨200, pageBody [Json.int 9] (some 2)⟩, ⟨404, Json.null⟩]
    (mkClient "t" Option.none (some 7) Option.none) "E" Option.none 1 3 0 ⟨404, Json.null⟩
    (by
      intro i hi
      have h0 : i = 0 := by omega
      subst h0
      exact ⟨⟨200, pageBody [Json.int 9] (some 2)⟩, rfl, rfl⟩)
    rfl rfl (by omega)

/-- C5 (claim as stated is falsified at the missing-response case): when
the HTTP library yields a null response, `_get` does not signal an
`ApiError` carrying the endpoint and status — evaluating
`resp.status_code` inside the message format raises `AttributeError`
before the `ApiError` is ever constructed. -/
theorem transportGet_null_response_counterexample :
    (transportGet (fun _ _ => Option.none) 0
        (mkClient "t" Option.none (some 7) Option.none) "E" Option.none false).1 =
      Except.error (PyErr.attributeError "NoneType object has no attribute status_code") ∧
    PyErr.isApiErr
      (PyErr.attributeError "NoneType object has no attribute status_code") = false :=
  ⟨rfl, rfl⟩

/-- C5 (amended): when a response is present, `_get` returns the parsed
body exactly when the status is in [200, 300), and any other status
raises the `ApiError` carrying the endpoint and status code (the single
transport error type for present responses); a missing/null response,
however, raises an attribute error — not an `ApiError` — because the
code touches `resp.status_code` while formatting the message. -/
theorem transportGet_status_contract :
    (∀ (srv : Server) (k : Nat) (c : Client) (ep : String) (qs : Option Dict) (we : Bool)
        (resp : HttpResp), srv k (builtRequest c ep qs we) = some resp →
      (okStatus resp.status = true →
        (transportGet srv k c ep qs we).1 = Except.ok resp.body) ∧
      (okStatus resp.status = false → (transportGet srv k c ep qs we).1 =
        Except.error (PyErr.apiError ("GET " ++ ep ++ " " ++ toString resp.status)))) ∧
    (∀ (srv : Server) (k : Nat) (c : Client) (ep : String) (qs : Option Dict) (we : Bool)
        (body : Json), (transportGet srv k c ep qs we).1 = Except.ok body →
      ∃ resp, srv k (builtRequest c ep qs we) = some resp ∧ okStatus resp.status = true ∧
        resp.body = body) ∧
    (∀ (srv : Server) (k : Nat) (c : Client) (ep : String) (qs : Option Dict) (we : Bool),
      srv k (builtRequest c ep qs we) = Option.none →
      (transportGet srv k c ep qs we).1 =
        Except.error (PyErr.attributeError "NoneType object has no attribute status_code") ∧
      PyErr.isApiErr
        (PyErr.attributeError "NoneType object has no attribute status_code") = false) := by
  refine ⟨?_, ?_, ?_⟩
  · intro srv k c ep qs we resp h
    exact ⟨fun hok => transportGet_of_some_ok srv k c ep qs we resp h hok,
      fun hok => transportGet_of_some_bad srv k c ep qs we resp h hok⟩
  · intro srv k c ep qs we body h
    exact transportGet_ok_inv srv k c ep qs we body h
  · intro srv k c ep qs we h
    exact ⟨transportGet_of_none srv k c ep qs we h, rfl⟩

/-- Witness for C5: the amended theorem applied to a server answering 404
with a null JSON body. -/
theorem transportGet_status_contract_witness :
    (okStatus ((404 : Int)) = true →
      (transportGet (fun _ _ => some ⟨404, Json.null⟩) 0
          (mkClient "t" Option.none (some 7) Option.none) "E" Option.none false).1 =
        Except.ok Json.null) ∧
    (okStatus ((404 : Int)) = false →
      (transportGet (fun _ _ => some ⟨404, Json.null⟩) 0
          (mkClient "t" Option.none (some 7) Option.none) "E" Option.none false).1 =
        Except.error (PyErr.apiError ("GET " ++ "E" ++ " " ++ toString (404 : Int)))) :=
  transportGet_status_contract.1 (fun _ _ => some ⟨404, Json.null⟩) 0
    (mkClient "t" Option.none (some 7) Option.none) "E" Option.none false
    ⟨404, Json.null⟩ rfl

theorem verifyProjectIdExists_none (c : Client) (caller : String)
    (h : c.projectId = Option.none) :
    verifyProjectIdExists c caller =
      Except.error (PyErr.apiError (projectIdMissingMsg caller)) := by
  unfold verifyProjectIdExists
  rw [h]
  rfl

theorem verifyAccountIdExists_none (c : Client) (caller : String)
    (h : c.accountId = Option.none) :
    verifyAccountIdExists c caller =
      Except.error (PyErr.apiError (accountIdMissingMsg caller)) := by
  unfold verifyAccountIdExists
  rw [h]
  rfl

theorem verifyProjectIdExists_ok (c : Client) (caller : String)
    (h : truthyId c.projectId = true) :
    verifyProjectIdExists c caller = Except.ok () := by
  unfold verifyProjectIdExists
  rw [h]
  rfl

/-- C6: every public method gated on an identifier, called on a client
whose identifier is unset (`None`), returns the `ApiError` naming the
method that required the identifier (the name the source recovers by
stack inspection), the GET counter is unchanged and the list of issued
requests is empty — no network call happens.  For
`get_all_integration_stories` the named method is `get_integrations`,
the gated method it calls first. -/
theorem precondition_guards :
    (∀ (srv : Server) (c : Client) (f : PyVal) (fuel k0 : Nat),
      c.projectId = Option.none →
      getStoriesByFilter srv c f fuel k0 =
        (some (Except.error (PyErr.apiError (projectIdMissingMsg "get_stories_by_filter")),
          k0, []), c)) ∧
    (∀ (srv : Server) (c : Client) (label : String) (fuel k0 : Nat),
      c.projectId = Option.none →
      getStoriesByLabel srv c label fuel k0 =
        some (Except.error (PyErr.apiError (projectIdMissingMsg "get_stories_by_label")),
          k0, [])) ∧
    (∀ (srv : Server) (c : Client) (sid : Int) (k0 : Nat),
      c.projectId = Option.none →
      getStoryActivities srv c sid k0 =
        (Except.error (PyErr.apiError (projectIdMissingMsg "get_story_activities")),
          k0, [])) ∧
    (∀ (srv : Server) (c : Client) (k0 : Nat),
      c.projectId = Option.none →
      getProjectMemberships srv c k0 =
        (Except.error (PyErr.apiError (projectIdMissingMsg "get_project_memberships")),
          k0, [])) ∧
    (∀ (srv : Server) (c : Client) (k0 : Nat),
      c.projectId = Option.none →
      getIntegrations srv c k0 =
        (Except.error (PyErr.apiError (projectIdMissingMsg "get_integrations")), k0, [])) ∧
    (∀ (srv : Server) (c : Client) (iid : PyVal) (k0 : Nat),
      c.projectId = Option.none →
      getIntegration srv c iid k0 =
        (Except.error (PyErr.apiError (projectIdMissingMsg "get_integration")), k0, [])) ∧
    (∀ (srv : Server) (c : Client) (iid : PyVal) (k0 : Nat),
      c.projectId = Option.none →
      getIntegrationStories srv c iid k0 =
        (Except.error (PyErr.apiError (projectIdMissingMsg "get_integration_stories")),
          k0, [])) ∧
    (∀ (srv : Server) (c : Client) (k0 : Nat),
      c.projectId = Option.none →
      getAllIntegrationStories srv c k0 =
        (Except.error (PyErr.apiError (projectIdMissingMsg "get_integrations")), k0, [])) ∧
    (∀ (srv : Server) (c : Client) (k0 : Nat),
      c.accountId = Option.none →
      getAccountMemberships srv c k0 =
        (Except.error (PyErr.apiError (accountIdMissingMsg "get_account_memberships")),
          k0, [])) := by
  refine ⟨?_, ?_, ?_, ?_, ?_, ?_, ?_, ?_, ?_⟩
  · intro srv c f fuel k0 h
    unfold getStoriesByFilter
    rw [verifyProjectIdExists_none c _ h]
  · intro srv c label fuel k0 h
    unfold getStoriesByLabel
    rw [verifyProjectIdExists_none c _ h]
  · intro srv c sid k0 h
    unfold getStoryActivities
    rw [verifyProjectIdExists_none c _ h]
  · intro srv c k0 h
    unfold getProjectMemberships
    rw [verifyProjectIdExists_none c _ h]
  · intro srv c k0 h
    unfold getIntegrations
    rw [verifyProjectIdExists_none c _ h]
  · intro srv c iid k0 h
    unfold getIntegration
    rw [verifyProjectIdExists_none c _ h]
  · intro srv c iid k0 h
    unfold getIntegrationStories
    rw [verifyProjectIdExists_none c _ h]
  · intro srv c k0 h
    unfold getAllIntegrationStories getIntegrations
    rw [verifyProjectIdExists_none c _ h]
  · intro srv c k0 h
    unfold getAccountMemberships
    rw [verifyAccountIdExists_none c _ h]

/-- Witness for C6: a client with no project id, calling
`get_stories_by_filter`: the precondition error names the method and the
request list is empty. -/
theorem precondition_guards_witness :
    (mkClient "t" Option.none Option.none Option.none).projectId = Option.none ∧
    getStoriesByFilter (fun _ _ => Option.none)
        (mkClient "t" Option.none Option.none Option.none) (PyVal.str "f") 5 0 =
      (some (Except.error (PyErr.apiError (projectIdMissingMsg "get_stories_by_filter")),
        0, []), mkClient "t" Option.none Option.none Option.none) :=
  ⟨rfl, precondition_guards.1 (fun _ _ => Option.none)
    (mkClient "t" Option.none Option.none Option.none) (PyVal.str "f") 5 0 rfl⟩

/-- C7: the transport and the paginator work on clones of the caller's
querystring — the caller's mapping, an immutable value here because the
code only ever writes into the copy, is untouched — and every request
they issue carries exactly the caller's keys plus only the keys the core
adds: for `_get`, the params agree with the caller's dict on every key
other than `envelope`, `envelope=true` is present iff the flag is set
(the flagless call sends the clone unchanged); for `_get_all`, every
issued request agrees with the caller's dict on every key other than
`limit`, `offset` and `envelope`, and carries those three. -/
theorem querystring_not_mutated :
    (∀ (c : Client) (ep : String) (qs : Dict) (we : Bool),
      (∀ k2, k2 ≠ "envelope" →
        dictGet (builtRequest c ep (some qs) we).params k2 = dictGet qs k2) ∧
      (we = true → dictGet (builtRequest c ep (some qs) we).params "envelope" =
        some (PyVal.str "true")) ∧
      (we = false → (builtRequest c ep (some qs) we).params = qs)) ∧
    (∀ (srv : Server) (c : Client) (ep : String) (qs : Option Dict) (fuel k0 : Nat)
        (out : Except PyErr (List Json) × Nat × List Request),
      getAll srv c ep qs fuel k0 = some out →
      ∀ r ∈ out.2.2,
        (∀ k2, k2 ≠ "limit" → k2 ≠ "offset" → k2 ≠ "envelope" →
          dictGet r.params k2 = dictGet (qs.getD []) k2) ∧
        dictGet r.params "envelope" = some (PyVal.str "true") ∧
        (∃ li, dictGet r.params "limit" = some (PyVal.int li)) ∧
        (∃ oi, dictGet r.params "offset" = some (PyVal.int oi))) := by
  constructor
  · intro c ep qs we
    refine ⟨?_, ?_, ?_⟩
    · intro k2 hk
      cases we
      · rfl
      · exact dictGet_dictSet_ne qs "envelope" k2 _ hk
    · intro hwe
      subst hwe
      exact dictGet_dictSet_self qs "envelope" _
    · intro hwe
      subst hwe
      rfl
  · intro srv c ep qs fuel k0 out h r hr
    unfold getAll at h
    rcases getAllLoop_requests_shape srv c ep (qs.getD []) fuel _ _ _ _ _ _ h r hr with
      h1 | ⟨l, o, rfl⟩
    · simp at h1
    · exact ⟨fun k2 hk1 hk2 hk3 => loopRequest_params_frame c ep _ l o k2 hk1 hk2 hk3,
        loopRequest_params_envelope c ep _ l o,
        ⟨l, loopRequest_params_limit c ep _ l o⟩,
        ⟨o, loopRequest_params_offset c ep _ l o⟩⟩

/-- Witness for C7: the paginator part applied to a concrete one-page run
whose caller dict carries a `foo` key; the transport part needs no
witness input beyond the quantifiers, so the same concrete instantiation
is recorded for both. -/
theorem querystring_not_mutated_witness :
    ((∀ k2, k2 ≠ "envelope" →
      dictGet (builtRequest (mkClient "t" Option.none (some 7) Option.none) "E"
        (some [("foo", PyVal.str "bar")]) true).params k2 =
        dictGet [("foo", PyVal.str "bar")] k2) ∧
     (true = true → dictGet (builtRequest (mkClient "t" Option.none (some 7) Option.none)
        "E" (some [("foo", PyVal.str "bar")]) true).params "envelope" =
        some (PyVal.str "true")) ∧
     (true = false → (builtRequest (mkClient "t" Option.none (some 7) Option.none) "E"
        (some [("foo", PyVal.str "bar")]) true).params = [("foo", PyVal.str "bar")])) ∧
    (∀ r ∈ (((Except.ok [], 1,
        [loopRequest (mkClient "t" Option.none (some 7) Option.none) "E"
          [("foo", PyVal.str "bar")] 1000 0]) :
            Except PyErr (List Json) × Nat × List Request)).2.2,
      (∀ k2, k2 ≠ "limit" → k2 ≠ "offset" → k2 ≠ "envelope" →
        dictGet r.params k2 =
          dictGet ((some [("foo", PyVal.str "bar")] : Option Dict).getD []) k2) ∧
      dictGet r.params "envelope" = some (PyVal.str "true") ∧
      (∃ li, dictGet r.params "limit" = some (PyVal.int li)) ∧
      (∃ oi, dictGet r.params "offset" = some (PyVal.int oi))) :=
  ⟨querystring_not_mutated.1 (mkClient "t" Option.none (some 7) Option.none) "E"
      [("foo", PyVal.str "bar")] true,
    querystring_not_mutated.2 (liftServer (fun _ => some ⟨200, pageBody [] (some 2)⟩))
      (mkClient "t" Option.none (some 7) Option.none) "E"
      (some [("foo", PyVal.str "bar")]) 2 0
      (Except.ok [], 1,
        [loopRequest (mkClient "t" Option.none (some 7) Option.none) "E"
          [("foo", PyVal.str "bar")] 1000 0]) rfl⟩

/-- C8: every request a `_get_all` run issues carries `envelope=true`,
and each run's first request carries the fresh cursor `limit = 1000`,
`offset = 0`, for any caller, server and prior GET count — invocations
share no cursor state; the non-paginated single-resource methods issue
requests that carry no `envelope` key at all. -/
theorem envelope_and_cursor :
    (∀ (srv : Server) (c : Client) (ep : String) (qs : Option Dict) (fuel k0 : Nat)
        (out : Except PyErr (List Json) × Nat × List Request),
      getAll srv c ep qs fuel k0 = some out →
      (∀ r ∈ out.2.2, dictGet r.params "envelope" = some (PyVal.str "true")) ∧
      ∃ rest, out.2.2 = loopRequest c ep (qs.getD []) DEFAULT_PAGE_LIMIT 0 :: rest ∧
        reqLimitI (loopRequest c ep (qs.getD []) DEFAULT_PAGE_LIMIT 0) = 1000 ∧
        reqOffsetI (loopRequest c ep (qs.getD []) DEFAULT_PAGE_LIMIT 0) = 0) ∧
    (∀ (srv : Server) (c : Client) (sid : Int) (k0 : Nat),
      ∀ r ∈ (getStoryActivities srv c sid k0).2.2,
        dictGet r.params "envelope" = Option.none) ∧
    (∀ (srv : Server) (c : Client) (k0 : Nat),
      ∀ r ∈ (getProjectMemberships srv c k0).2.2,
        dictGet r.params "envelope" = Option.none) ∧
    (∀ (srv : Server) (c : Client) (k0 : Nat),
      ∀ r ∈ (getAccountMemberships srv c k0).2.2,
        dictGet r.params "envelope" = Option.none) ∧
    (∀ (srv : Server) (c : Client) (k0 : Nat),
      ∀ r ∈ (getIntegrations srv c k0).2.2,
        dictGet r.params "envelope" = Option.none) ∧
    (∀ (srv : Server) (c : Client) (iid : PyVal) (k0 : Nat),
      ∀ r ∈ (getIntegration srv c iid k0).2.2,
        dictGet r.params "envelope" = Option.none) ∧
    (∀ (srv : Server) (c : Client) (iid : PyVal) (k0 : Nat),
      ∀ r ∈ (getIntegrationStories srv c iid k0).2.2,
        dictGet r.params "envelope" = Option.none) := by
  refine ⟨?_, ?_, ?_, ?_, ?_, ?_, ?_⟩
  · intro srv c ep qs fuel k0 out h
    constructor
    · intro r hr
      unfold getAll at h
      rcases getAllLoop_requests_shape srv c ep (qs.getD []) fuel _ _ _ _ _ _ h r hr with
        h1 | ⟨l, o, rfl⟩
      · simp at h1
      · exact loopRequest_params_envelope c ep _ l o
    · unfold getAll at h
      obtain ⟨rest, hrest⟩ := getAllLoop_head srv c ep (qs.getD []) fuel _ _ _ _ _ _ h
      rw [List.nil_append] at hrest
      exact ⟨rest, hrest, reqLimitI_loopRequest _ _ _ _ _, reqOffsetI_loopRequest _ _ _ _ _⟩
  · intro srv c sid k0 r hr
    unfold getStoryActivities at hr
    cases hv : verifyProjectIdExists c "get_story_activities" with
    | error e => rw [hv] at hr; simp at hr
    | ok u =>
      rw [hv] at hr
      simp only [List.mem_singleton] at hr
      subst hr
      rw [transportGet_snd]
      rfl
  · intro srv c k0 r hr
    unfold getProjectMemberships at hr
    cases hv : verifyProjectIdExists c "get_project_memberships" with
    | error e => rw [hv] at hr; simp at hr
    | ok u =>
      rw [hv] at hr
      simp only [List.mem_singleton] at hr
      subst hr
      rw [transportGet_snd]
      rfl
  · intro srv c k0 r hr
    unfold getAccountMemberships at hr
    cases hv : verifyAccountIdExists c "get_account_memberships" with
    | error e => rw [hv] at hr; simp at hr
    | ok u =>
      rw [hv] at hr
      simp only [List.mem_singleton] at hr
      subst hr
      rw [transportGet_snd]
      rfl
  · intro srv c k0 r hr
    unfold getIntegrations at hr
    cases hv : verifyProjectIdExists c "get_integrations" with
    | error e => rw [hv] at hr; simp at hr
    | ok u =>
      rw [hv] at hr
      simp only [List.mem_singleton] at hr
      subst hr
      rw [transportGet_snd]
      rfl
  · intro srv c iid k0 r hr
    unfold getIntegration at hr
    cases hv : verifyProjectIdExists c "get_integration" with
    | error e => rw [hv] at hr; simp at hr
    | ok u =>
      rw [hv] at hr
      simp only [List.mem_singleton] at hr
      subst hr
      rw [transportGet_snd]
      rfl
  · intro srv c iid k0 r hr
    unfold getIntegrationStories at hr
    cases hv : verifyProjectIdExists c "get_integration_stories" with
    | error e => rw [hv] at hr; simp at hr
    | ok u =>
      rw [hv] at hr
      simp only [List.mem_singleton] at hr
      subst hr
      rw [transportGet_snd]
      rfl

/-- Witness for C8: the paginator part applied to a concrete one-page run
starting at prior GET count 5 — the first request still carries
`limit = 1000`, `offset = 0`. -/
theorem envelope_and_cursor_witness :
    (∀ r ∈ (((Except.ok [], 6,
        [loopRequest (mkClient "t" Option.none (some 7) Option.none) "E" [] 1000 0]) :
          Except PyErr (List Json) × Nat × List Request)).2.2,
      dictGet r.params "envelope" = some (PyVal.str "true")) ∧
    (∃ rest, (((Except.ok [], 6,
        [loopRequest (mkClient "t" Option.none (some 7) Option.none) "E" [] 1000 0]) :
          Except PyErr (List Json) × Nat × List Request)).2.2 =
        loopRequest (mkClient "t" Option.none (some 7) Option.none) "E"
          ((Option.none : Option Dict).getD []) DEFAULT_PAGE_LIMIT 0 :: rest ∧
      reqLimitI (loopRequest (mkClient "t" Option.none (some 7) Option.none) "E"
        ((Option.none : Option Dict).getD []) DEFAULT_PAGE_LIMIT 0) = 1000 ∧
      reqOffsetI (loopRequest (mkClient "t" Option.none (some 7) Option.none) "E"
        ((Option.none : Option Dict).getD []) DEFAULT_PAGE_LIMIT 0) = 0) :=
  envelope_and_cursor.1 (liftServer (fun _ => some ⟨200, pageBody [] (some 2)⟩))
    (mkClient "t" Option.none (some 7) Option.none) "E" Option.none 2 5
    (Except.ok [], 6,
      [loopRequest (mkClient "t" Option.none (some 7) Option.none) "E" [] 1000 0]) rfl

theorem mkClient_projectId (tok : String) (acct p : Option Int) (root : Option String) :
    (mkClient tok acct p root).projectId = p := rfl

theorem mkClient_apiFilter (tok : String) (acct p : Option Int) (root : Option String) :
    (mkClient tok acct p root).apiFilter = apiFilterInit := rfl

/-- C9: `get_stories_by_filter` writes the requested filter into a copy of
the shared `api_filter` dict: the client comes back unchanged with its
`api_filter` still at the constant initial value
`⟨date_format := millis, filter := None⟩`, and every request of the run
carries `date_format=millis` together with `filter` set to the given
value — so successive calls with different filters are independent. -/
theorem getStoriesByFilter_filter_isolation (srv : Server) (tok : String)
    (acct : Option Int) (pid : Int) (root : Option String) (f : PyVal) (fuel k0 : Nat)
    (hpid : pid ≠ 0) :
    (getStoriesByFilter srv (mkClient tok acct (some pid) root) f fuel k0).2 =
      mkClient tok acct (some pid) root ∧
    (mkClient tok acct (some pid) root).apiFilter = apiFilterInit ∧
    (∀ out : Except PyErr (List Json) × Nat × List Request,
      (getStoriesByFilter srv (mkClient tok acct (some pid) root) f fuel k0).1 =
        some out →
      ∀ r ∈ out.2.2,
        dictGet r.params "date_format" = some (PyVal.str "millis") ∧
        dictGet r.params "filter" = some f) := by
  have htr : truthyId (mkClient tok acct (some pid) root).projectId = true := by
    rw [mkClient_projectId]
    simp [truthyId, hpid]
  have hv := verifyProjectIdExists_ok (mkClient tok acct (some pid) root)
    "get_stories_by_filter" htr
  refine ⟨?_, rfl, ?_⟩
  · unfold getStoriesByFilter
    rw [hv]
  · intro out h r hr
    unfold getStoriesByFilter at h
    rw [hv] at h
    have h2 : getAll srv (mkClient tok acct (some pid) root)
        (apiStories (mkClient tok acct (some pid) root))
        (some (dictSet (mkClient tok acct (some pid) root).apiFilter "filter" f))
        fuel k0 = some out := h
    unfold getAll at h2
    rcases getAllLoop_requests_shape srv _ _ _ fuel _ _ _ _ _ _ h2 r hr with h1 | ⟨l, o, rfl⟩
    · simp at h1
    · constructor
      · rw [loopRequest_params_frame _ _ _ l o "date_format"
          (by decide) (by decide) (by decide)]
        simp only [Option.getD_some, mkClient_apiFilter]
        rw [dictGet_dictSet_ne _ _ _ _ (by decide)]
        rfl
      · rw [loopRequest_params_frame _ _ _ l o "filter"
          (by decide) (by decide) (by decide)]
        simp only [Option.getD_some, mkClient_apiFilter]
        exact dictGet_dictSet_self _ _ _

/-- Witness for C9: the theorem applied to a concrete client and filter. -/
theorem getStoriesByFilter_filter_isolation_witness :
    (7 : Int) ≠ 0 ∧
    ((getStoriesByFilter (fun _ _ => Option.none)
        (mkClient "t" Option.none (some 7) Option.none) (PyVal.str "flt") 1 0).2 =
      mkClient "t" Option.none (some 7) Option.none ∧
    (mkClient "t" Option.none (some 7) Option.none).apiFilter = apiFilterInit ∧
    (∀ out : Except PyErr (List Json) × Nat × List Request,
      (getStoriesByFilter (fun _ _ => Option.none)
          (mkClient "t" Option.none (some 7) Option.none) (PyVal.str "flt") 1 0).1 =
        some out →
      ∀ r ∈ out.2.2,
        dictGet r.params "date_format" = some (PyVal.str "millis") ∧
        dictGet r.params "filter" = some (PyVal.str "flt"))) :=
  ⟨by decide, getStoriesByFilter_filter_isolation (fun _ _ => Option.none) "t"
    Option.none 7 Option.none (PyVal.str "flt") 1 0 (by decide)⟩

theorem integrationStoriesLoop_canned (srv : Server) (c : Client)
    (hc : truthyId c.projectId = true) :
    ∀ (ids : List Int) (stories : List (List Json)) (k : Nat) (acc : List Json)
      (reqs : List Request),
      ids.length = stories.length →
      (∀ i, i < ids.length → ∀ r, srv (k + i) r = some (arrResp (stories.getD i []))) →
      integrationStoriesLoop srv c (ids.map intObj) acc k reqs =
        (Except.ok (acc ++ stories.flatten), k + ids.length,
          reqs ++ ids.map (integrationStoriesRequest c)) := by
  intro ids
  induction ids with
  | nil =>
    intro stories k acc reqs hlen hsrv
    have hstories : stories = [] := by
      cases stories with
      | nil => rfl
      | cons s ss => simp at hlen
    subst hstories
    simp [integrationStoriesLoop]
  | cons id0 ids ih =>
    intro stories k acc reqs hlen hsrv
    cases stories with
    | nil => simp at hlen
    | cons s ss =>
      have hver := verifyProjectIdExists_ok c "get_integration_stories" hc
      have hresp : srv k (builtRequest c (apiIntegrationStories c (PyVal.int id0))
          (some [("exclude_linked", PyVal.str "true")]) false) = some (arrResp s) := by
        have h0 := hsrv 0 (by simp) (builtRequest c (apiIntegrationStories c (PyVal.int id0))
          (some [("exclude_linked", PyVal.str "true")]) false)
        simpa using h0
      have htg : (transportGet srv k c (apiIntegrationStories c (PyVal.int id0))
          (some [("exclude_linked", PyVal.str "true")]) false).1 =
          Except.ok (Json.arr s) :=
        transportGet_of_some_ok srv k c (apiIntegrationStories c (PyVal.int id0))
          (some [("exclude_linked", PyVal.str "true")]) false (arrResp s) hresp rfl
      have hsnd : (transportGet srv k c (apiIntegrationStories c (PyVal.int id0))
          (some [("exclude_linked", PyVal.str "true")]) false).2 =
          integrationStoriesRequest c id0 := transportGet_snd _ _ _ _ _ _
      have hid : integrationIdOf (intObj id0) = some (PyVal.int id0) := rfl
      have hrec := ih ss (k + 1) (acc ++ s) (reqs ++ [integrationStoriesRequest c id0])
        (by simpa using hlen)
        (by
          intro i hi r
          have h1 := hsrv (i + 1) (by simpa using Nat.succ_lt_succ hi) r
          have he : k + (i + 1) = k + 1 + i := by omega
          rw [he] at h1
          simpa using h1)
      simp only [List.map_cons, integrationStoriesLoop, hid, getIntegrationStories, hver,
        htg, hsnd]
      rw [hrec]
      refine congrArg₂ Prod.mk ?_ (congrArg₂ Prod.mk ?_ ?_)
      · simp [List.append_assoc]
      · simp only [List.length_cons]
        omega
      · simp [List.append_assoc]

/-- C10: `get_all_integration_stories` against a server holding the
integration list `⟨id := n⟩` for the ids `ids` (in order) and, for each,
a story list: it returns exactly the concatenation of the per-integration
story lists in the order the integrations were returned, after one
integrations GET followed by one stories GET per integration, each
stories request carrying `exclude_linked='true'`; and with the project id
unset it raises the precondition error naming `get_integrations` with no
request issued. -/
theorem getAllIntegrationStories_concat :
    (∀ (tok : String) (acct : Option Int) (pid : Int) (root : Option String)
        (ids : List Int) (stories : List (List Json)),
      pid ≠ 0 → ids.length = stories.length →
      getAllIntegrationStories
          (cannedServer (arrResp (ids.map intObj) :: stories.map arrResp))
          (mkClient tok acct (some pid) root) 0 =
        (Except.ok stories.flatten, ids.length + 1,
          integrationsRequest (mkClient tok acct (some pid) root) ::
            ids.map (integrationStoriesRequest (mkClient tok acct (some pid) root))) ∧
      ∀ n : Int, dictGet (integrationStoriesRequest
          (mkClient tok acct (some pid) root) n).params "exclude_linked" =
        some (PyVal.str "true")) ∧
    (∀ (srv : Server) (c : Client) (k0 : Nat),
      c.projectId = Option.none →
      getAllIntegrationStories srv c k0 =
        (Except.error (PyErr.apiError (projectIdMissingMsg "get_integrations")),
          k0, [])) := by
  constructor
  · intro tok acct pid root ids stories hpid hlen
    have htr : truthyId (mkClient tok acct (some pid) root).projectId = true := by
      rw [mkClient_projectId]
      simp [truthyId, hpid]
    have hver := verifyProjectIdExists_ok (mkClient tok acct (some pid) root)
      "get_integrations" htr
    have hresp : cannedServer (arrResp (ids.map intObj) :: stories.map arrResp) 0
        (builtRequest (mkClient tok acct (some pid) root)
          (apiIntegrations (mkClient tok acct (some pid) root)) Option.none false) =
        some (arrResp (ids.map intObj)) := rfl
    have htg : (transportGet
        (cannedServer (arrResp (ids.map intObj) :: stories.map arrResp)) 0
        (mkClient tok acct (some pid) root)
        (apiIntegrations (mkClient tok acct (some pid) root)) Option.none false).1 =
        Except.ok (Json.arr (ids.map intObj)) :=
      transportGet_of_some_ok _ 0 _ _ Option.none false (arrResp (ids.map intObj))
        hresp rfl
    have hsnd : (transportGet
        (cannedServer (arrResp (ids.map intObj) :: stories.map arrResp)) 0
        (mkClient tok acct (some pid) root)
        (apiIntegrations (mkClient tok acct (some pid) root)) Option.none false).2 =
        integrationsRequest (mkClient tok acct (some pid) root) :=
      transportGet_snd _ _ _ _ _ _
    have hloop := integrationStoriesLoop_canned
      (cannedServer (arrResp (ids.map intObj) :: stories.map arrResp))
      (mkClient tok acct (some pid) root) htr ids stories 1 []
      [integrationsRequest (mkClient tok acct (some pid) root)] hlen
      (by
        intro i hi r
        show (arrResp (ids.map intObj) :: stories.map arrResp).get? (1 + i) =
          some (arrResp (stories.getD i []))
        have h1 : (1 : Nat) + i = i + 1 := by omega
        rw [h1]
        simp only [List.get?_cons_succ, List.get?_eq_getElem?, List.getElem?_map]
        have h3 : i < stories.length := by omega
        simp [List.getElem?_eq_getElem h3, List.getD_eq_getElem?_getD])
    constructor
    · unfold getAllIntegrationStories getIntegrations
      simp only [hver, htg, hsnd, Nat.zero_add]
      rw [hloop]
      refine congrArg₂ Prod.mk ?_ (congrArg₂ Prod.mk ?_ ?_)
      · simp
      · omega
      · simp
    · intro n
      rfl
  · intro srv c k0 h
    unfold getAllIntegrationStories getIntegrations
    rw [verifyProjectIdExists_none c _ h]

/-- Witness for C10: two integrations with ids 5 and 9, whose story lists
are `[10, 11]` and `[12]`: the result is `[10, 11, 12]` after 3 calls. -/
theorem getAllIntegrationStories_concat_witness :
    (7 : Int) ≠ 0 ∧
    ([5, 9] : List Int).length = ([[Json.int 10, Json.int 11], [Json.int 12]] :
      List (List Json)).length ∧
    (getAllIntegrationStories
        (cannedServer (arrResp (([5, 9] : List Int).map intObj) ::
          ([[Json.int 10, Json.int 11], [Json.int 12]] : List (List Json)).map arrResp))
        (mkClient "t" Option.none (some 7) Option.none) 0 =
      (Except.ok ([[Json.int 10, Json.int 11], [Json.int 12]] :
          List (List Json)).flatten,
        ([5, 9] : List Int).length + 1,
        integrationsRequest (mkClient "t" Option.none (some 7) Option.none) ::
          ([5, 9] : List Int).map
            (integrationStoriesRequest (mkClient "t" Option.none (some 7) Option.none))) ∧
      ∀ n : Int, dictGet (integrationStoriesRequest
          (mkClient "t" Option.none (some 7) Option.none) n).params "exclude_linked" =
        some (PyVal.str "true")) :=
  ⟨by decide, by decide,
    getAllIntegrationStories_concat.1 "t" Option.none 7 Option.none [5, 9]
      [[Json.int 10, Json.int 11], [Json.int 12]] (by decide) (by decide)⟩

end Pivotal
